import Mathlib

/-!
Verification development for the tiered intent-resolution pipeline of the
task-management backend (backend/intent_router.py, backend/graph.py,
backend/models.py).

Modelling conventions:
* Python dict/list values produced for the frontend are modelled by `PyVal`.
* The spaCy pipeline (tokenizer, POS tagger, NER) is an external learned
  model; its output for an utterance is modelled by `Doc` (a token list with
  attributes plus entity labels), supplied as an input.  The rule patterns,
  the matcher semantics for the operators used (one, ?, +, *), the span
  filtering (spacy.util.filter_spans) and everything downstream are embedded
  from source.
* uuid.uuid4() and datetime.utcnow().isoformat() are effectful; the fresh
  identifier and the iso-formatted current time are passed as parameters.
* The reasoning engine (llm_json.invoke followed by json.loads) is modelled
  as a function from the message list to the JSON-decode outcome: `none`
  models content on which json.loads raises JSONDecodeError, `some v` models
  content decoding to the Python value `v`.
* Python exceptions that escape a node are modelled with `Except PyErr`.
-/

namespace Backend

/-- A Python value as produced by json.loads or built by the backend:
dicts, lists, strings, integers, booleans and None. -/
inductive PyVal where
  | obj (fields : List (String × PyVal))
  | arr (elems : List PyVal)
  | str (s : String)
  | num (n : Int)
  | bool (b : Bool)
  | null

/-- Field lookup in a decoded dict (fields of a decoded Python dict are
distinct, so first-match lookup agrees with dict lookup). -/
def lookupField : List (String × PyVal) → String → Option PyVal
  | [], _ => none
  | (k, v) :: rest, key => if k == key then some v else lookupField rest key

/-- Python d.get(key, default) on a decoded dict. -/
def pyGetD (fields : List (String × PyVal)) (key : String) (default : PyVal) : PyVal :=
  (lookupField fields key).getD default

/-- Python truthiness of a value, as used by `if item_id:`. -/
def pyTruthy : PyVal → Bool
  | .null => false
  | .bool b => b
  | .num n => n != 0
  | .str s => !s.isEmpty
  | .arr l => !l.isEmpty
  | .obj l => !l.isEmpty

/-- Python `v == s` for a string s and an arbitrary value v: equal exactly
when v is the same string (str compares unequal to every non-str value). -/
def pyEqStr (v : PyVal) (s : String) : Bool :=
  match v with
  | .str t => t == s
  | _ => false

/-- Python `needle in hay` for strings: substring containment. -/
def pyContains (needle hay : String) : Bool :=
  decide (needle.data <:+: hay.data)

/-- Python str.strip(): remove leading and trailing whitespace. -/
def pyStrip (s : String) : String :=
  ⟨((s.data.dropWhile Char.isWhitespace).reverse.dropWhile Char.isWhitespace).reverse⟩

/-- Python str.lower() (ASCII lowering, character by character). -/
def pyLower (s : String) : String :=
  ⟨s.data.map Char.toLower⟩

/-- A spaCy token, reduced to the attributes the router reads: its text,
its trailing whitespace (so that text_with_ws = text ++ ws), its lowercase
form, its part-of-speech tag and its punctuation flag. -/
structure Token where
  text : String
  ws : String
  lower : String
  pos : String
  is_punct : Bool
deriving DecidableEq

/-- A parsed utterance as produced by the external nlp model: the token
sequence and the labels of the named entities found in it. -/
structure Doc where
  tokens : List Token
  ents : List String
deriving DecidableEq

/-- Matcher operators used by the three rule patterns. -/
inductive MatchOp where
  | once
  | opt
  | plus
  | star
deriving DecidableEq

/-- One token-pattern entry: a predicate on the token plus an operator. -/
structure PatSpec where
  pred : Token → Bool
  op : MatchOp

/-- Number of leading tokens of the list satisfying p. -/
def countLeading (p : Token → Bool) : List Token → Nat
  | [] => 0
  | t :: ts => if p t then countLeading p ts + 1 else 0

/-- The lengths a single pattern entry can consume from the front of ts
(the matcher returns every expansion of ?, + and *). -/
def opLens (spec : PatSpec) (ts : List Token) : List Nat :=
  match spec.op with
  | .once => match ts with
    | [] => []
    | t :: _ => if spec.pred t then [1] else []
  | .opt => match ts with
    | [] => [0]
    | t :: _ => if spec.pred t then [0, 1] else [0]
  | .plus => (List.range (countLeading spec.pred ts)).map (· + 1)
  | .star => List.range (countLeading spec.pred ts + 1)

/-- All total lengths a pattern (a list of entries) can consume from the
front of ts. -/
def seqLens : List PatSpec → List Token → List Nat
  | [], _ => [0]
  | spec :: rest, ts =>
    (opLens spec ts).flatMap (fun m => (seqLens rest (ts.drop m)).map (m + ·))

/-- Pattern for creating a task (intent_router.py create_pattern). -/
def create_pattern : List PatSpec :=
  [⟨fun t => (t.lower == "add" || t.lower == "create" || t.lower == "make")
      && t.pos == "VERB", .once⟩,
   ⟨fun t => t.lower == "a" || t.lower == "an" || t.lower == "the", .opt⟩,
   ⟨fun t => t.lower == "task" || t.lower == "reminder" || t.lower == "item"
      || t.lower == "entry", .opt⟩,
   ⟨fun t => t.lower == "to" || t.lower == "for", .opt⟩,
   ⟨fun t => t.pos == "VERB" || t.pos == "NOUN", .plus⟩,
   ⟨fun t => !t.is_punct, .star⟩]

/-- Pattern for deleting a task (intent_router.py delete_pattern). -/
def delete_pattern : List PatSpec :=
  [⟨fun t => (t.lower == "delete" || t.lower == "remove"
      || t.lower == "get rid of" || t.lower == "cancel") && t.pos == "VERB", .once⟩,
   ⟨fun t => !t.is_punct, .star⟩]

/-- Pattern for toggling completion (intent_router.py toggle_pattern). -/
def toggle_pattern : List PatSpec :=
  [⟨fun t => (t.lower == "mark" || t.lower == "toggle" || t.lower == "finish"
      || t.lower == "finished" || t.lower == "complete" || t.lower == "completed"
      || t.lower == "did") && (t.pos == "VERB" || t.pos == "AUX"), .once⟩,
   ⟨fun t => !t.is_punct, .star⟩]

/-- A match span: the rule label plus token start and stop (exclusive). -/
structure Span where
  rule : String
  start : Nat
  stop : Nat
deriving DecidableEq

def spanLen (sp : Span) : Nat := sp.stop - sp.start

/-- All spans at which a rule pattern matches the token list. -/
def ruleMatches (rid : String) (pat : List PatSpec) (toks : List Token) : List Span :=
  (List.range (toks.length + 1)).flatMap (fun s =>
    (seqLens pat (toks.drop s)).map (fun n => ⟨rid, s, s + n⟩))

/-- All matches, listed so that for identical spans the rules appear in the
order the patterns were added to the matcher (create, delete, toggle). -/
def allMatches (toks : List Token) : List Span :=
  ruleMatches "CREATE_TASK" create_pattern toks
    ++ ruleMatches "DELETE_TASK" delete_pattern toks
    ++ ruleMatches "TOGGLE_TASK" toggle_pattern toks

/-- Stable insertion used to model Python's stable sorted(...). -/
def insertSorted (le : Span → Span → Bool) (x : Span) : List Span → List Span
  | [] => [x]
  | y :: ys => if le x y then x :: y :: ys else y :: insertSorted le x ys

/-- Stable sort: x is placed before y exactly when le x y. -/
def sortSpans (le : Span → Span → Bool) (l : List Span) : List Span :=
  l.foldr (insertSorted le) []

/-- Sort position for sorted(spans, key=(len, -start), reverse=True):
longer spans first, then smaller start first, equal keys keep input order. -/
def spanBefore (a b : Span) : Bool :=
  spanLen b < spanLen a || (spanLen a == spanLen b && a.start ≤ b.start)

/-- Sort position for the final sorted(result, key=start). -/
def spanStartLe (a b : Span) : Bool :=
  a.start ≤ b.start

/-- The greedy selection loop of spacy.util.filter_spans with its
seen_tokens set. -/
def selectSpans : List Span → List Nat → List Span
  | [], _ => []
  | sp :: rest, seen =>
    if sp.start ∈ seen ∨ (sp.stop - 1) ∈ seen then selectSpans rest seen
    else sp :: selectSpans rest (seen ++ List.range' sp.start (sp.stop - sp.start))

/-- spacy.util.filter_spans: sort longest-first, greedily keep spans whose
boundary tokens are unseen, then sort the kept spans by start. -/
def filter_spans (spans : List Span) : List Span :=
  sortSpans spanStartLe (selectSpans (sortSpans spanBefore spans) [])

/-- Whether an action dict carries the given action_type tag. -/
def actionTypeIs (ty : String) (a : PyVal) : Bool :=
  match a with
  | .obj fields =>
    match lookupField fields "action_type" with
    | some v => pyEqStr v ty
    | none => false
  | _ => false

/-- Whether a produced actions value (normally a list) contains an action
of the given action_type. -/
def containsActionType (ty : String) (v : PyVal) : Bool :=
  match v with
  | .arr l => l.any (actionTypeIs ty)
  | _ => false

/-- Result dict of run_intent_router. -/
structure RouterResult where
  intent : String
  payload : Option (List PyVal)
  response : Option String

def fallbackResult : RouterResult :=
  { intent := "AGENT_FALLBACK", payload := none, response := none }

/-- The createTask action dict the router builds for the full shortcut. -/
def createTaskActionVal (taskId creationDate title : String) : PyVal :=
  .obj [("action_type", .str "createTask"),
        ("payload", .obj [("task", .obj
          [("id", .str taskId),
           ("title", .str title),
           ("description", .null),
           ("is_completed", .bool false),
           ("priority", .null),
           ("creation_date", .str creationDate),
           ("deadline", .null),
           ("predicted_duration_in_minutes", .null)])])]

/-- The loop locating the title start: the first doc index strictly inside
the span (span offset i > 0) whose token is a VERB or NOUN; 0 if none. -/
def titleStartIndex (toks : List Token) (s e : Nat) : Nat :=
  match (List.range' (s + 1) (e - (s + 1))).find? (fun j =>
      match toks[j]? with
      | some t => t.pos == "VERB" || t.pos == "NOUN"
      | none => false) with
  | some j => j
  | none => 0

/-- Concatenated text_with_ws of a token list. -/
def textWithWs : List Token → String
  | [] => ""
  | t :: ts => t.text ++ t.ws ++ textWithWs ts

/-- Text of the tokens from index i to the end, as in doc[i:].text (the
final strip makes the trailing-whitespace difference irrelevant). -/
def sliceText (toks : List Token) (i : Nat) : String :=
  textWithWs (toks.drop i)

/-- The entity loop of the CREATE_TASK branch: whether any named entity of
the parse has one of the labels the router treats as complex. -/
def hasComplexEntity (doc : Doc) : Bool :=
  doc.ents.any (fun l =>
    l == "DATE" || l == "TIME" || l == "CARDINAL" || l == "ORDINAL")

/-- Whether any token of the parse is priority/deadline/urgent vocabulary. -/
def hasPriorityVocab (doc : Doc) : Bool :=
  doc.tokens.any (fun t =>
    t.lower == "priority" || t.lower == "deadline" || t.lower == "urgent")

/-- run_intent_router (intent_router.py).  The doc argument is the output
of the external nlp model on the user message; `none` models the branch in
which the spaCy model failed to load.  freshId models str(uuid.uuid4()) and
nowIso models datetime.utcnow().isoformat(). -/
def run_intent_router (doc? : Option Doc) (freshId nowIso : String) : RouterResult :=
  match doc? with
  | none => fallbackResult
  | some doc =>
    match (filter_spans (allMatches doc.tokens)).head? with
    | none => fallbackResult
    | some best =>
      if best.rule == "CREATE_TASK" then
        if hasComplexEntity doc then
          fallbackResult
        else if hasPriorityVocab doc then
          fallbackResult
        else
          let task_title :=
            pyStrip (sliceText doc.tokens (titleStartIndex doc.tokens best.start best.stop))
          { intent := "CREATE_TASK",
            payload := some [createTaskActionVal freshId (nowIso ++ "Z") task_title],
            response := some ("OK, I\x27ve added \x27" ++ task_title ++ "\x27 to your list.") }
      else if best.rule == "DELETE_TASK" || best.rule == "TOGGLE_TASK" then
        { intent := best.rule, payload := none, response := none }
      else
        fallbackResult

/-- Task (models.py): datetime fields and the Priority enum value are
carried as their rendered strings, which is all graph.py reads of them. -/
structure Task where
  id : String
  title : String
  description : Option String
  is_completed : Bool
  priority : Option String
  creation_date : String
  deadline : Option String
deriving DecidableEq

/-- Modelled from the spec: graph.py imports TimeBlock from models, but the
models.py in the sources (base variant) does not define it.  Spec section 3
gives identifier, reference to a Task identifier, start timestamp and
duration; the start timestamp is carried through the two strftime renderings
graph.py uses (start_hm for strftime of H:M, start_ymd_hm for strftime of
Y-m-d H:M) and the duration through actual_duration_in_minutes. -/
structure TimeBlock where
  id : String
  task_id : String
  start_hm : String
  start_ymd_hm : String
  actual_duration_in_minutes : Nat
deriving DecidableEq

/-- ChatMessage (models.py): the sender tag is carried as its rendered
string ("user" or "bot"). -/
structure ChatMessage where
  id : String
  text : String
  sender : String
deriving DecidableEq

/-- AppState (models.py), with the timeBlocks list of the extended variant
that graph.py reads (modelled from the spec, as for TimeBlock). -/
structure AppState where
  tasks : List Task
  chatHistory : List ChatMessage
  timeBlocks : List TimeBlock
deriving DecidableEq

/-- A langchain message: SystemMessage or HumanMessage with its content. -/
inductive Message where
  | system (content : String)
  | human (content : String)
deriving DecidableEq

/-- A Python exception escaping a node uncaught. -/
inductive PyErr where
  | attributeError
deriving DecidableEq

/-- GraphState (graph.py).  The llm/llm_json/embeddings_model handles kept
in the Python state dict are modelled as function arguments to the nodes
that use them. -/
structure GraphState where
  app_state : AppState
  messages : List Message
  candidate_tasks : Option (List Task)
  candidate_time_blocks : Option (List TimeBlock)
  chat_response : PyVal
  actions : PyVal
  detected_intent : String

/-- The final API response (models.py ApiResponse): the response text and
actions list exactly as the last node left them. -/
structure ApiResponseM where
  chat_response : PyVal
  actions : PyVal

/-- app_state.chatHistory[-1].text; an empty history is rejected at the
HTTP boundary (main.py) before the graph runs. -/
def lastMessageText (st : AppState) : String :=
  match st.chatHistory.getLast? with
  | some m => m.text
  | none => ""

def pyBoolStr (b : Bool) : String :=
  if b then "True" else "False"

/-- Python f-string rendering of an optional value: None prints as "None". -/
def optRender (o : Option String) : String :=
  match o with
  | some s => s
  | none => "None"

/-- next((t.title for t in tasks if t.id == tid), default). -/
def firstTitle (tasks : List Task) (tid : String) (default : String) : String :=
  ((tasks.find? (fun t => t.id == tid)).map Task.title).getD default

/-- get_system_prompt (graph.py): the instruction document for the general
agent, rendered exactly as the source f-string does. -/
def get_system_prompt (tasks : List Task) (time_blocks : List TimeBlock)
    (candidate_tasks : Option (List Task))
    (candidate_time_blocks : Option (List TimeBlock)) : String :=
  let task_list_str := String.intercalate "\n" (tasks.map (fun t =>
    "- ID: " ++ t.id ++ ", Title: \x27" ++ t.title ++ "\x27, Completed: "
      ++ pyBoolStr t.is_completed ++ ", Priority: " ++ optRender t.priority
      ++ ", Deadline: " ++ optRender t.deadline ++ ", Created: " ++ t.creation_date))
  let time_block_list_str :=
    if time_blocks.isEmpty then "No events are scheduled on the calendar."
    else "Here is the current list of all scheduled time blocks on the calendar:\n"
      ++ String.intercalate "\n" (time_blocks.map (fun tb =>
        "- Block ID: " ++ tb.id ++ ", Task: \x27"
          ++ firstTitle tasks tb.task_id "Unknown Task" ++ "\x27, Start: "
          ++ tb.start_ymd_hm ++ ", Duration: "
          ++ toString tb.actual_duration_in_minutes ++ " mins"))
  let candidate_task_str :=
    match candidate_tasks with
    | some (c :: cs) =>
      "Based on a semantic search, these are the most likely tasks the user is referring to:\n"
        ++ String.intercalate "\n" ((c :: cs).map (fun t =>
          "- ID: " ++ t.id ++ ", Title: \x27" ++ t.title ++ "\x27"))
    | _ => "No specific tasks identified as candidates."
  let candidate_time_block_str :=
    match candidate_time_blocks with
    | some (c :: cs) =>
      "Based on a semantic search, these are the most likely calendar events the user is referring to:\n"
        ++ String.intercalate "\n" ((c :: cs).map (fun tb =>
          "- Block ID: " ++ tb.id ++ ", Task Title: \x27"
            ++ firstTitle tasks tb.task_id "Unknown" ++ "\x27, Start: " ++ tb.start_hm))
    | _ => "No specific calendar events identified as candidates."
  "\nYou are a helpful and efficient task management assistant. Your goal is to help the user manage their to-do list and calendar via conversation.\nYou are part of a system that is stateless. You will receive the entire list of tasks, time blocks, and chat history in every request.\nThe user\x27s most recent message is the last one in the chat history. You must respond to it.\n\nHere is the current list of all tasks:\n"
    ++ task_list_str ++ "\n\n" ++ time_block_list_str ++ "\n\n"
    ++ candidate_task_str ++ "\n\n" ++ candidate_time_block_str
    ++ "\n\nBased on the user\x27s latest message, you MUST decide what to do. You MUST respond with a valid JSON object with this exact structure:\n\x7b\n  \"response_message\": \"Your conversational response here\",\n  \"actions\": [ /* Array of action objects, can be empty */ ]\n\x7d\n\nAvailable actions and their exact formats:\n\nFor tasks:\n- createTask: \x7b\"action_type\": \"createTask\", \"payload\": \x7b\"task\": \x7b ...task object... \x7d \x7d \x7d\n- updateTask: \x7b\"action_type\": \"updateTask\", \"payload\": \x7b\"id\": \"task-id\", \"updatedTask\": \x7b ...task object... \x7d \x7d \x7d\n- deleteTask: \x7b\"action_type\": \"deleteTask\", \"payload\": \x7b\"id\": \"task-id\"\x7d \x7d\n- toggleTaskCompletion: \x7b\"action_type\": \"toggleTaskCompletion\", \"payload\": \x7b\"id\": \"task-id\"\x7d \x7d\n\nFor calendar time blocks:\n- createTimeBlock: \x7b\"action_type\": \"createTimeBlock\", \"payload\": \x7b\"task_id\": \"existing-task-id\", \"start_time\": \"YYYY-MM-DDTHH:MM:SSZ\", \"duration_in_minutes\": 60\x7d \x7d\n- updateTimeBlock: \x7b\"action_type\": \"updateTimeBlock\", \"payload\": \x7b\"id\": \"existing-block-id\", \"new_start_time\": \"YYYY-MM-DDTHH:MM:SSZ\", \"new_duration_in_minutes\": 45\x7d \x7d\n- deleteTimeBlock: \x7b\"action_type\": \"deleteTimeBlock\", \"payload\": \x7b\"id\": \"existing-block-id\"\x7d \x7d\n\n--- IMPORTANT RULES ---\n1. To schedule a task on the calendar (\x60createTimeBlock\x60), you MUST use the ID of an existing task. If the user asks to schedule something that is not yet a task, you MUST create the task first, then create the time block for it in the same \x60actions\x60 array.\n2. When a user wants to move or reschedule an event, use \x60updateTimeBlock\x60.\n3. When a user wants to cancel or remove an event from the calendar, use \x60deleteTimeBlock\x60.\n4. NEVER guess an ID. If a request is ambiguous, ask for clarification.\n5. If the user\x27s request is out of scope, just provide a friendly conversational response with an empty actions array.\n6. Always generate a \x60response_message\x60 that confirms what you\x27ve done or asks for clarification.\n"

/-- prepare_initial_messages (graph.py). -/
def prepare_initial_messages (state : GraphState) : GraphState :=
  let chat_history_str := String.intercalate "\n"
    (state.app_state.chatHistory.map (fun m => m.sender ++ ": " ++ m.text))
  let latest_message := lastMessageText state.app_state
  { state with messages :=
      [.human ("Chat History:\n" ++ chat_history_str
        ++ "\n\nUser\x27s latest message: \x27" ++ latest_message ++ "\x27")] }

/-- find_candidate_tasks_node (graph.py).  The two semantic-search helpers
call the external embedding model, so they are passed in as capabilities;
the add/create pre-filter is the node's own logic. -/
def find_candidate_tasks_node (state : GraphState)
    (findSimilarTasksFn : String → List Task → List Task)
    (findSimilarTimeBlocksFn : String → List TimeBlock → List Task → List TimeBlock) :
    GraphState :=
  let user_query := lastMessageText state.app_state
  let all_tasks := state.app_state.tasks
  let all_time_blocks := state.app_state.timeBlocks
  let candidate_tasks :=
    if !(pyContains "add" (pyLower user_query)) && !(pyContains "create" (pyLower user_query))
    then findSimilarTasksFn user_query all_tasks
    else []
  { state with
      candidate_tasks := some candidate_tasks,
      candidate_time_blocks :=
        some (findSimilarTimeBlocksFn user_query all_time_blocks all_tasks) }

/-- agent_node (graph.py).  llmJson models llm_json.invoke followed by
json.loads of the content; a dict result is consumed with .get and its
defaults, any other JSON value makes bot_response.get raise AttributeError,
which the except clause (JSONDecodeError, KeyError) does not catch. -/
def agentMessages (state : GraphState) : List Message :=
  .system (get_system_prompt state.app_state.tasks state.app_state.timeBlocks
    state.candidate_tasks state.candidate_time_blocks) :: state.messages

def agent_node (state : GraphState)
    (llmJson : List Message → Option PyVal) : Except PyErr GraphState :=
  match llmJson (agentMessages state) with
  | none =>
    .ok { state with
      chat_response := .str "I\x27m sorry, I encountered an error processing your request. Please try again.",
      actions := .arr [] }
  | some (.obj fields) =>
    .ok { state with
      chat_response := pyGetD fields "response_message" (.str "I processed your request."),
      actions := pyGetD fields "actions" (.arr []) }
  | some _ => .error .attributeError

/-- final_response_node (graph.py): a placeholder pass-through. -/
def final_response_node (state : GraphState) : GraphState :=
  state

/-- intent_router_node (graph.py).  nlpFn models the external spaCy
pipeline applied to the utterance (none when the model is unavailable). -/
def intent_router_node (state : GraphState) (nlpFn : String → Option Doc)
    (freshId nowIso : String) : GraphState :=
  let user_query := lastMessageText state.app_state
  let router_result := run_intent_router (nlpFn user_query) freshId nowIso
  let st := { state with detected_intent := router_result.intent }
  if router_result.intent == "CREATE_TASK" then
    { st with
        chat_response := match router_result.response with
          | some s => .str s
          | none => .null,
        actions := match router_result.payload with
          | some l => .arr l
          | none => .null }
  else st

/-- The failure response closure of specialized_agent_node. -/
def get_failure_response (state : GraphState) : GraphState :=
  { state with
      chat_response := .str "I couldn\x27t find an item matching your request. Could you be more specific?",
      actions := .arr [] }

/-- The tail of specialized_agent_node after the focused prompt is built:
one llm_json call, json.loads, then the per-intent action construction.
As in agent_node, a decoded non-dict makes result.get raise AttributeError,
which the except clause does not catch. -/
def specializedDecode (state : GraphState)
    (llmJson : List Message → Option PyVal) (prompt : String) :
    Except PyErr GraphState :=
  let intent := state.detected_intent
  let all_tasks := state.app_state.tasks
  match llmJson [.human prompt] with
  | none =>
    .ok { state with
      chat_response := .str "I had trouble understanding which item you meant. Could you be more specific?",
      actions := .arr [] }
  | some (.obj fields) =>
    let item_id := (lookupField fields "item_id").getD .null
    if pyTruthy item_id then
      if intent == "DELETE_TASK" then
        let candidate_tasks := state.candidate_tasks.getD []
        let title := ((candidate_tasks.find? (fun t => pyEqStr item_id t.id)).map Task.title).getD "the task"
        .ok { state with
          chat_response := .str ("OK, I\x27ve deleted \x27" ++ title ++ "\x27 from your list."),
          actions := .arr [.obj [("action_type", .str "deleteTask"),
                                 ("payload", .obj [("id", item_id)])]] }
      else if intent == "TOGGLE_TASK" then
        let candidate_tasks := state.candidate_tasks.getD []
        let title := ((candidate_tasks.find? (fun t => pyEqStr item_id t.id)).map Task.title).getD "the task"
        .ok { state with
          chat_response := .str ("OK, I\x27ve toggled the completion status of \x27" ++ title ++ "\x27."),
          actions := .arr [.obj [("action_type", .str "toggleTaskCompletion"),
                                 ("payload", .obj [("id", item_id)])]] }
      else if intent == "DELETE_TIME_BLOCK" then
        let candidate_time_blocks := state.candidate_time_blocks.getD []
        let block := candidate_time_blocks.find? (fun b => pyEqStr item_id b.id)
        let task_title := match block with
          | some b => firstTitle all_tasks b.task_id "the event"
          | none => "the event"
        .ok { state with
          chat_response := .str ("OK, I\x27ve removed \x27" ++ task_title ++ "\x27 from your calendar."),
          actions := .arr [.obj [("action_type", .str "deleteTimeBlock"),
                                 ("payload", .obj [("id", item_id)])]] }
      else
        .ok state
    else
      .ok { state with
        chat_response := .str "I couldn\x27t find a task matching your request. Could you be more specific?",
        actions := .arr [] }
  | some _ => .error .attributeError

/-- Python dict lookup task_map.get(tb.task_id, default) built from a
dict comprehension over all tasks: on duplicate ids the last entry wins. -/
def dictTitle (tasks : List Task) (tid : String) (default : String) : String :=
  ((tasks.reverse.find? (fun t => t.id == tid)).map Task.title).getD default

/-- specialized_agent_node (graph.py): the lightweight focused resolver for
DELETE_TASK, TOGGLE_TASK and DELETE_TIME_BLOCK. -/
def specialized_agent_node (state : GraphState)
    (llmJson : List Message → Option PyVal) : Except PyErr GraphState :=
  let intent := state.detected_intent
  let user_query := lastMessageText state.app_state
  let all_tasks := state.app_state.tasks
  if intent == "DELETE_TASK" || intent == "TOGGLE_TASK" then
    let candidate_items := state.candidate_tasks.getD []
    if candidate_items.isEmpty then .ok (get_failure_response state)
    else
      let item_list := String.intercalate "\n" (candidate_items.map (fun t =>
        "- ID: " ++ t.id ++ ", Title: \x27" ++ t.title ++ "\x27"))
      let action_word := if intent == "DELETE_TASK" then "delete" else "toggle"
      let prompt := "User wants to " ++ action_word ++ " a task with this query: \"" ++ user_query
        ++ "\"\nThese are the candidate tasks:\n" ++ item_list
        ++ "\nReturn JSON with the ID of the task to " ++ action_word
        ++ ": \x7b\"item_id\": \"the-correct-id\"\x7d\nIf none match, return: \x7b\"item_id\": null\x7d"
      specializedDecode state llmJson prompt
  else if intent == "DELETE_TIME_BLOCK" then
    let candidate_items := state.candidate_time_blocks.getD []
    if candidate_items.isEmpty then .ok (get_failure_response state)
    else
      let item_list := String.intercalate "\n" (candidate_items.map (fun tb =>
        "- ID: " ++ tb.id ++ ", Title: \x27" ++ dictTitle all_tasks tb.task_id "Unknown Task"
          ++ "\x27 at " ++ tb.start_hm))
      let prompt := "User wants to delete a calendar event with this query: \"" ++ user_query
        ++ "\"\nThese are the candidate events:\n" ++ item_list
        ++ "\nReturn JSON with the ID of the event to delete: \x7b\"item_id\": \"the-correct-id\"\x7d\nIf none match, return: \x7b\"item_id\": null\x7d"
      specializedDecode state llmJson prompt
  else .ok (get_failure_response state)

/-- route_after_intent (graph.py), applied to the detected intent read from
the state (with its AGENT_FALLBACK default). -/
def route_after_intent (intent : String) : String :=
  if intent == "CREATE_TASK" then "final_response"
  else if intent == "DELETE_TASK" || intent == "TOGGLE_TASK"
      || intent == "DELETE_TIME_BLOCK" then "find_candidate_tasks"
  else "prepare_initial_messages"

/-- route_after_find_candidates (graph.py). -/
def route_after_find_candidates (intent : String) : String :=
  if intent == "DELETE_TASK" || intent == "TOGGLE_TASK"
      || intent == "DELETE_TIME_BLOCK" then "specialized_agent"
  else "agent"

/-- The edge relation of the compiled workflow: conditional edges after the
intent router and after candidate retrieval, the static add_edge entries,
and final_response flowing to END. -/
def graph_next (node intent : String) : String :=
  if node == "intent_router" then route_after_intent intent
  else if node == "find_candidate_tasks" then route_after_find_candidates intent
  else if node == "prepare_initial_messages" then "find_candidate_tasks"
  else if node == "agent" then "final_response"
  else if node == "specialized_agent" then "final_response"
  else "END"

/-- The node sequence the state machine visits for a detected intent,
starting at the entry point (fuel bounds the walk; the graph is a dag of
six nodes, so fuel 8 is never exhausted). -/
def trajectoryFrom : Nat → String → String → List String
  | 0, node, _ => [node]
  | fuel + 1, node, intent =>
    if node == "END" then [node]
    else node :: trajectoryFrom fuel (graph_next node intent) intent

def trajectory (intent : String) : List String :=
  trajectoryFrom 8 "intent_router" intent

def initialGraphState (app_state : AppState) : GraphState :=
  { app_state := app_state, messages := [], candidate_tasks := none,
    candidate_time_blocks := none, chat_response := .str "", actions := .arr [],
    detected_intent := "" }

/-- run_graph (graph.py): build the initial state and walk the compiled
workflow, assembling ApiResponse from the final state.  The external
capabilities (nlp parse, reasoning call + decode, the two semantic-search
helpers built on the embedding model) are parameters; freshId and nowIso
feed the router shortcut as in run_intent_router. -/
def run_graph (app_state : AppState) (nlpFn : String → Option Doc)
    (freshId nowIso : String) (llmJson : List Message → Option PyVal)
    (findSimilarTasksFn : String → List Task → List Task)
    (findSimilarTimeBlocksFn : String → List TimeBlock → List Task → List TimeBlock) :
    Except PyErr ApiResponseM :=
  let s1 := intent_router_node (initialGraphState app_state) nlpFn freshId nowIso
  let r1 := route_after_intent s1.detected_intent
  if r1 == "final_response" then
    let sf := final_response_node s1
    .ok { chat_response := sf.chat_response, actions := sf.actions }
  else
    let s2 := if r1 == "find_candidate_tasks" then s1 else prepare_initial_messages s1
    let s3 := find_candidate_tasks_node s2 findSimilarTasksFn findSimilarTimeBlocksFn
    let r2 := route_after_find_candidates s3.detected_intent
    let agentStep :=
      if r2 == "specialized_agent" then specialized_agent_node s3 llmJson
      else agent_node s3 llmJson
    agentStep.map (fun st =>
      let sf := final_response_node st
      { chat_response := sf.chat_response, actions := sf.actions })

/-! Concrete sample inputs used by witnesses and counterexamples. -/

/-- A convenience constructor for sample tokens; the lowercase form is
derived from the text as the tokenizer would. -/
def mkTok (text pos : String) (punct : Bool) (ws : String) : Token :=
  { text := text, ws := ws, lower := pyLower text, pos := pos, is_punct := punct }

/-- Sample parse of "add the task buy milk". -/
def docAddTask : Doc :=
  { tokens := [mkTok "add" "VERB" false " ", mkTok "the" "DET" false " ",
               mkTok "task" "NOUN" false " ", mkTok "buy" "VERB" false " ",
               mkTok "milk" "NOUN" false ""],
    ents := [] }

/-- Sample parse of "finished. add the task buy milk": the toggle rule
matches the single token at position 0, the create rule matches the longer
span starting at position 2. -/
def docFinishedAdd : Doc :=
  { tokens := [mkTok "finished" "VERB" false "", mkTok "." "PUNCT" true " ",
               mkTok "add" "VERB" false " ", mkTok "the" "DET" false " ",
               mkTok "task" "NOUN" false " ", mkTok "buy" "VERB" false " ",
               mkTok "milk" "NOUN" false ""],
    ents := [] }

/-- Sample parse of "did. create a task buy milk", same shape as
docFinishedAdd with different tokens. -/
def docDidCreate : Doc :=
  { tokens := [mkTok "did" "AUX" false "", mkTok "." "PUNCT" true " ",
               mkTok "create" "VERB" false " ", mkTok "a" "DET" false " ",
               mkTok "task" "NOUN" false " ", mkTok "buy" "VERB" false " ",
               mkTok "milk" "NOUN" false ""],
    ents := [] }

/-- Sample parse of "delete milk": both matches start at token 0. -/
def docDeleteMilk : Doc :=
  { tokens := [mkTok "delete" "VERB" false " ", mkTok "milk" "NOUN" false ""],
    ents := [] }

/-- Sample parse of "add milk by friday" carrying a DATE entity. -/
def docAddDate : Doc :=
  { tokens := [mkTok "add" "VERB" false " ", mkTok "milk" "NOUN" false " ",
               mkTok "by" "ADP" false " ", mkTok "friday" "PROPN" false ""],
    ents := ["DATE"] }

/-- A one-message app state with the given last-message text and sender. -/
def mkAppState (text sender : String) : AppState :=
  { tasks := [], chatHistory := [{ id := "msg-1", text := text, sender := sender }],
    timeBlocks := [] }

/-- The greatest span length occurring in a list. -/
def maxSpanLen (l : List Span) : Nat :=
  l.foldr (fun sp m => max (spanLen sp) m) 0

/-- A reasoning capability that inspects the prepared human message: it
answers "A" on the chat history rendered with sender tag user and "B"
otherwise. -/
def senderProbeLlm : List Message → Option PyVal := fun msgs =>
  match msgs with
  | [Message.system _, Message.human h] =>
    if h = "Chat History:\nuser: hello\n\nUser\x27s latest message: \x27hello\x27"
    then some (.obj [("response_message", .str "A"), ("actions", .arr [])])
    else some (.obj [("response_message", .str "B"), ("actions", .arr [])])
  | _ => none

/-! Theorems. -/

/-- C2: after the intent router, CREATE_TASK goes directly to
final_response with no other stage running; DELETE_TASK, TOGGLE_TASK and
DELETE_TIME_BLOCK go to candidate retrieval and then the focused resolver;
any other intent goes to prompt preparation, then candidate retrieval, then
the general agent. -/
theorem C2_orchestrator_state_sequence (intent : String) :
    (intent = "CREATE_TASK" →
      trajectory intent = ["intent_router", "final_response", "END"]) ∧
    (intent = "DELETE_TASK" ∨ intent = "TOGGLE_TASK" ∨ intent = "DELETE_TIME_BLOCK" →
      trajectory intent =
        ["intent_router", "find_candidate_tasks", "specialized_agent",
         "final_response", "END"]) ∧
    (intent ≠ "CREATE_TASK" → intent ≠ "DELETE_TASK" → intent ≠ "TOGGLE_TASK" →
      intent ≠ "DELETE_TIME_BLOCK" →
      trajectory intent =
        ["intent_router", "prepare_initial_messages", "find_candidate_tasks",
         "agent", "final_response", "END"]) := by
  refine ⟨?_, ?_, ?_⟩
  · rintro rfl
    decide
  · rintro (rfl | rfl | rfl) <;> decide
  · intro h1 h2 h3 h4
    simp [trajectory, trajectoryFrom, graph_next, route_after_intent,
      route_after_find_candidates, h1, h2, h3, h4]

/-- Witness for C2 at the concrete intent AGENT_FALLBACK. -/
theorem C2_orchestrator_state_sequence_witness :
    trajectory "AGENT_FALLBACK" =
      ["intent_router", "prepare_initial_messages", "find_candidate_tasks",
       "agent", "final_response", "END"] :=
  (C2_orchestrator_state_sequence "AGENT_FALLBACK").2.2
    (by decide) (by decide) (by decide) (by decide)

/-- C4: when the best pattern match is CREATE_TASK but the parse carries a
date/time/numeric entity or priority/deadline/urgent vocabulary, the router
returns AGENT_FALLBACK with no payload and no reply. -/
theorem C4_complexity_signals_fall_back (doc : Doc) (freshId nowIso : String)
    (best : Span)
    (hbest : (filter_spans (allMatches doc.tokens)).head? = some best)
    (hrule : best.rule = "CREATE_TASK")
    (hsig : hasComplexEntity doc = true ∨ hasPriorityVocab doc = true) :
    run_intent_router (some doc) freshId nowIso = fallbackResult := by
  rcases hsig with hs | hs <;> simp [run_intent_router, hbest, hrule, hs]

/-- Witness for C4 on the parse of "add milk by friday" (a DATE entity). -/
theorem C4_complexity_signals_fall_back_witness :
    run_intent_router (some docAddDate) "id-1" "2024-01-01T00:00:00" = fallbackResult :=
  C4_complexity_signals_fall_back docAddDate "id-1" "2024-01-01T00:00:00"
    ⟨"CREATE_TASK", 0, 4⟩ (by decide) rfl (Or.inl (by decide))

/-- C6: when the utterance contains "add" or "create", candidate retrieval
skips task search: the candidate task set is empty whatever the semantic
search capability would return, so the embedding model is not consulted for
tasks. -/
theorem C6_creation_vocabulary_skips_task_retrieval (state : GraphState)
    (findSimilarTasksFn : String → List Task → List Task)
    (findSimilarTimeBlocksFn : String → List TimeBlock → List Task → List TimeBlock)
    (h : pyContains "add" (pyLower (lastMessageText state.app_state)) = true
       ∨ pyContains "create" (pyLower (lastMessageText state.app_state)) = true) :
    (find_candidate_tasks_node state findSimilarTasksFn
        findSimilarTimeBlocksFn).candidate_tasks = some [] := by
  unfold find_candidate_tasks_node
  rcases h with h | h <;> simp [h]

/-- Witness for C6 on the utterance "add milk" (for every retrieval
capability; instantiated at one that would return a nonempty list, showing
its output is discarded). -/
theorem C6_creation_vocabulary_skips_task_retrieval_witness :
    (find_candidate_tasks_node (initialGraphState (mkAppState "add milk" "user"))
      (fun _ tasks => tasks)
      (fun _ blocks _ => blocks)).candidate_tasks = some [] :=
  C6_creation_vocabulary_skips_task_retrieval _ _ _ (Or.inl (by decide))

/-- C7: with an empty candidate set for its intent, the focused resolver
returns the fixed failure reply with zero actions, and the result is the
same for every reasoning capability, so the reasoning engine is never
consulted. -/
theorem C7_empty_candidates_short_circuit (state : GraphState)
    (llmJson : List Message → Option PyVal)
    (h : ((state.detected_intent = "DELETE_TASK" ∨ state.detected_intent = "TOGGLE_TASK")
            ∧ (state.candidate_tasks.getD []).isEmpty)
       ∨ (state.detected_intent = "DELETE_TIME_BLOCK"
            ∧ (state.candidate_time_blocks.getD []).isEmpty)) :
    specialized_agent_node state llmJson = .ok (get_failure_response state)
      ∧ (get_failure_response state).actions = .arr []
      ∧ (get_failure_response state).chat_response =
          .str "I couldn\x27t find an item matching your request. Could you be more specific?" := by
  refine ⟨?_, rfl, rfl⟩
  unfold specialized_agent_node
  rcases h with ⟨hi | hi, hc⟩ | ⟨hi, hc⟩ <;> simp [hi, hc]

/-- Witness for C7: DELETE_TASK with no candidate tasks. -/
theorem C7_empty_candidates_short_circuit_witness :
    specialized_agent_node
        { initialGraphState (mkAppState "remove the meeting" "user") with
            detected_intent := "DELETE_TASK", candidate_tasks := some [] }
        (fun _ => some (.obj [("item_id", .str "task-1")]))
      = .ok (get_failure_response
        { initialGraphState (mkAppState "remove the meeting" "user") with
            detected_intent := "DELETE_TASK", candidate_tasks := some [] }) :=
  (C7_empty_candidates_short_circuit _ _ (Or.inl ⟨Or.inl rfl, by decide⟩)).1

/-- The detected intent recorded by the router node is the router's
intent, in both branches. -/
theorem intent_router_node_detected_intent (state : GraphState)
    (nlpFn : String → Option Doc) (freshId nowIso : String) :
    (intent_router_node state nlpFn freshId nowIso).detected_intent
      = (run_intent_router (nlpFn (lastMessageText state.app_state))
          freshId nowIso).intent := by
  simp only [intent_router_node]
  split <;> rfl

/-- When the router does not detect CREATE_TASK, the router node only
records the intent and leaves the rest of the state unchanged. -/
theorem intent_router_node_not_create (state : GraphState)
    (nlpFn : String → Option Doc) (freshId nowIso : String)
    (h : (run_intent_router (nlpFn (lastMessageText state.app_state))
        freshId nowIso).intent ≠ "CREATE_TASK") :
    intent_router_node state nlpFn freshId nowIso
      = { state with detected_intent :=
            (run_intent_router (nlpFn (lastMessageText state.app_state))
              freshId nowIso).intent } := by
  unfold intent_router_node
  rw [if_neg]
  simpa using h

/-- C1 (amended): no normalizer runs on the general agent's output; when
the request falls through to the general agent, whatever dict the reasoning
call decodes to, its actions value reaches the caller structurally
unchanged (with the source defaults when the keys are absent) — nothing is
dropped and no identifier is generated. -/
theorem C1_agent_actions_pass_through_unnormalized (app_state : AppState)
    (nlpFn : String → Option Doc) (freshId nowIso : String)
    (fields : List (String × PyVal))
    (findSimilarTasksFn : String → List Task → List Task)
    (findSimilarTimeBlocksFn : String → List TimeBlock → List Task → List TimeBlock)
    (hint : (run_intent_router (nlpFn (lastMessageText app_state))
        freshId nowIso).intent = "AGENT_FALLBACK") :
    run_graph app_state nlpFn freshId nowIso (fun _ => some (.obj fields))
        findSimilarTasksFn findSimilarTimeBlocksFn
      = .ok { chat_response := pyGetD fields "response_message" (.str "I processed your request."),
              actions := pyGetD fields "actions" (.arr []) } := by
  have h1 := intent_router_node_not_create (initialGraphState app_state) nlpFn freshId nowIso
    (by rw [show (initialGraphState app_state).app_state = app_state from rfl, hint]; decide)
  rw [show (initialGraphState app_state).app_state = app_state from rfl, hint] at h1
  unfold run_graph
  rw [h1]
  simp [route_after_intent, route_after_find_candidates, prepare_initial_messages,
    find_candidate_tasks_node, agent_node, final_response_node, Except.map]

/-- Witness for C1's amended theorem on a concrete fallback request. -/
theorem C1_agent_actions_pass_through_unnormalized_witness :
    run_graph (mkAppState "hello there" "user") (fun _ => none) "id-1"
        "2024-01-01T00:00:00"
        (fun _ => some (.obj [("response_message", .str "done"),
          ("actions", .arr [.obj [("action_type", .str "createTask"),
            ("payload", .obj [("task", .obj [])])]])]))
        (fun _ _ => []) (fun _ _ _ => [])
      = .ok { chat_response := .str "done",
              actions := .arr [.obj [("action_type", .str "createTask"),
                ("payload", .obj [("task", .obj [])])]] } := by
  have h := C1_agent_actions_pass_through_unnormalized (mkAppState "hello there" "user")
    (fun _ => none) "id-1" "2024-01-01T00:00:00"
    [("response_message", .str "done"),
     ("actions", .arr [.obj [("action_type", .str "createTask"),
       ("payload", .obj [("task", .obj [])])]])]
    (fun _ _ => []) (fun _ _ _ => []) rfl
  simpa [pyGetD, lookupField] using h

/-- Counterexample to C1 as stated: a createTask payload whose task object
has no title (and no identifier) is not dropped and gets no generated
identifier; it reaches the caller untouched inside the actions list, while
the claim requires it to be dropped before reaching the caller. -/
theorem C1_counterexample_titleless_createTask_not_dropped :
    run_graph (mkAppState "do something" "user") (fun _ => none) "id-1"
        "2024-01-01T00:00:00"
        (fun _ => some (.obj [("response_message", .str "ok"),
          ("actions", .arr [.obj [("action_type", .str "createTask"),
            ("payload", .obj [("task", .obj [])])]])]))
        (fun _ _ => []) (fun _ _ _ => [])
      = .ok { chat_response := .str "ok",
              actions := .arr [.obj [("action_type", .str "createTask"),
                ("payload", .obj [("task", .obj [])])]] }
    ∧ containsActionType "createTask"
        (.arr [.obj [("action_type", .str "createTask"),
          ("payload", .obj [("task", .obj [])])]]) = true
    ∧ lookupField ([] : List (String × PyVal)) "title" = none
    ∧ lookupField ([] : List (String × PyVal)) "id" = none := by
  refine ⟨?_, rfl, rfl, rfl⟩
  rfl

/-- C8 (amended): when a reasoning stage's reply fails to parse as JSON,
the stage returns zero actions and its apology or clarification reply
instead of raising, and the focused resolver treats a null or missing
identifier the same way; a reply that parses to a non-object JSON value,
however, escapes as an uncaught error (see the counterexample). -/
theorem C8_parse_failure_degrades_gracefully :
    (∀ (state : GraphState) (llmJson : List Message → Option PyVal),
      llmJson (agentMessages state) = none →
      agent_node state llmJson
        = .ok { state with
            chat_response := .str "I\x27m sorry, I encountered an error processing your request. Please try again.",
            actions := .arr [] })
    ∧ (∀ (state : GraphState) (llmJson : List Message → Option PyVal) (prompt : String),
      llmJson [.human prompt] = none →
      specializedDecode state llmJson prompt
        = .ok { state with
            chat_response := .str "I had trouble understanding which item you meant. Could you be more specific?",
            actions := .arr [] })
    ∧ (∀ (state : GraphState) (llmJson : List Message → Option PyVal) (prompt : String)
        (fields : List (String × PyVal)),
      llmJson [.human prompt] = some (.obj fields) →
      pyTruthy ((lookupField fields "item_id").getD .null) = false →
      specializedDecode state llmJson prompt
        = .ok { state with
            chat_response := .str "I couldn\x27t find a task matching your request. Could you be more specific?",
            actions := .arr [] }) := by
  refine ⟨?_, ?_, ?_⟩
  · intro state llmJson h
    unfold agent_node
    rw [h]
  · intro state llmJson prompt h
    unfold specializedDecode
    rw [h]
  · intro state llmJson prompt fields h htruthy
    unfold specializedDecode
    rw [h]
    simp [htruthy]

/-- Witness for C8's amended theorem: a JSON parse failure in the general
agent degrades to the apology reply with zero actions. -/
theorem C8_parse_failure_degrades_gracefully_witness :
    agent_node (initialGraphState (mkAppState "hi" "user")) (fun _ => none)
      = .ok { initialGraphState (mkAppState "hi" "user") with
          chat_response := .str "I\x27m sorry, I encountered an error processing your request. Please try again.",
          actions := .arr [] } :=
  C8_parse_failure_degrades_gracefully.1
    (initialGraphState (mkAppState "hi" "user")) (fun _ => none) rfl

/-- Counterexample to C8 as stated: a reply that is valid JSON but not an
object (here the array []) fails to decode against the expected schema, yet
the stage does not degrade to an apology with zero actions — the .get call
raises an AttributeError that the except clause does not catch, so an
exception propagates out of the stage. -/
theorem C8_counterexample_non_object_reply_raises :
    agent_node (initialGraphState (mkAppState "hi there" "user"))
        (fun _ => some (.arr []))
      = .error .attributeError
    ∧ specializedDecode (initialGraphState (mkAppState "hi there" "user"))
        (fun _ => some (.arr [])) "prompt"
      = .error .attributeError :=
  ⟨rfl, rfl⟩

/-- The router's intent is always one of the three rule labels or the
fallback tag. -/
theorem run_intent_router_intent_mem (doc? : Option Doc) (freshId nowIso : String) :
    (run_intent_router doc? freshId nowIso).intent
      ∈ (["CREATE_TASK", "DELETE_TASK", "TOGGLE_TASK", "AGENT_FALLBACK"] : List String) := by
  cases doc? with
  | none => simp [run_intent_router, fallbackResult]
  | some doc =>
    cases hb : (filter_spans (allMatches doc.tokens)).head? with
    | none => simp [run_intent_router, hb, fallbackResult]
    | some best =>
      simp only [run_intent_router, hb]
      split_ifs <;> simp_all [fallbackResult] <;> tauto

/-- When the router reports CREATE_TASK it carries the fully built
createTask action and the canned confirmation. -/
theorem run_intent_router_create_payload (doc? : Option Doc) (freshId nowIso : String)
    (h : (run_intent_router doc? freshId nowIso).intent = "CREATE_TASK") :
    ∃ title, run_intent_router doc? freshId nowIso
      = { intent := "CREATE_TASK",
          payload := some [createTaskActionVal freshId (nowIso ++ "Z") title],
          response := some ("OK, I\x27ve added \x27" ++ title ++ "\x27 to your list.") } := by
  cases doc? with
  | none => exact absurd h (by simp [run_intent_router, fallbackResult])
  | some doc =>
    cases hb : (filter_spans (allMatches doc.tokens)).head? with
    | none =>
      rw [run_intent_router, hb] at h
      simp [fallbackResult] at h
    | some best =>
      rw [run_intent_router, hb] at h ⊢
      simp only [] at h ⊢
      by_cases h1 : (best.rule == "CREATE_TASK") = true
      · rw [if_pos h1] at h ⊢
        by_cases h2 : hasComplexEntity doc = true
        · rw [if_pos h2] at h
          simp [fallbackResult] at h
        · rw [if_neg h2] at h ⊢
          by_cases h3 : hasPriorityVocab doc = true
          · rw [if_pos h3] at h
            simp [fallbackResult] at h
          · rw [if_neg h3]
            exact ⟨_, rfl⟩
      · rw [if_neg h1] at h ⊢
        by_cases h4 : (best.rule == "DELETE_TASK" || best.rule == "TOGGLE_TASK") = true
        · rw [if_pos h4] at h
          simp only [] at h
          simp at h1
          exact absurd h h1
        · rw [if_neg h4] at h
          simp [fallbackResult] at h

/-- The focused resolver's decode step, invoked with a task intent, never
emits a deleteTimeBlock action. -/
theorem specializedDecode_no_deleteTimeBlock (state : GraphState)
    (llmJson : List Message → Option PyVal) (prompt : String) (st' : GraphState)
    (hin : state.detected_intent = "DELETE_TASK" ∨ state.detected_intent = "TOGGLE_TASK")
    (h : specializedDecode state llmJson prompt = .ok st') :
    containsActionType "deleteTimeBlock" st'.actions = false := by
  rw [specializedDecode] at h
  rcases hllm : llmJson [.human prompt] with _ | v <;> rw [hllm] at h
  · cases h
    rfl
  · cases v with
    | obj fields =>
      simp only [] at h
      rcases hin with hi | hi <;> rw [hi] at h <;> (repeat' split at h) <;>
        first
          | (cases h; rfl)
          | simp_all
    | arr l => cases h
    | str sv => cases h
    | num nv => cases h
    | bool bv => cases h
    | null => cases h

/-- specialized_agent_node, invoked with a task intent, never emits a
deleteTimeBlock action. -/
theorem specialized_agent_node_no_deleteTimeBlock (state : GraphState)
    (llmJson : List Message → Option PyVal) (st' : GraphState)
    (hin : state.detected_intent = "DELETE_TASK" ∨ state.detected_intent = "TOGGLE_TASK")
    (h : specialized_agent_node state llmJson = .ok st') :
    containsActionType "deleteTimeBlock" st'.actions = false := by
  rw [specialized_agent_node] at h
  have hi2 := hin
  rcases hin with hi | hi <;> rw [hi] at h <;> simp only [] at h <;>
    (repeat' split at h) <;>
    first
      | (cases h; rfl)
      | (exact specializedDecode_no_deleteTimeBlock _ _ _ _ (by simpa [hi] using hi2) h)
      | simp_all

/-- Candidate retrieval does not change the recorded intent. -/
theorem find_candidate_tasks_node_detected_intent (st : GraphState)
    (fT : String → List Task → List Task)
    (fB : String → List TimeBlock → List Task → List TimeBlock) :
    (find_candidate_tasks_node st fT fB).detected_intent = st.detected_intent := rfl

/-- On a CREATE_TASK intent, run_graph takes the full shortcut and returns
the router-built createTask action and canned reply. -/
theorem run_graph_create_shortcut (app_state : AppState) (nlpFn : String → Option Doc)
    (freshId nowIso : String) (llmJson : List Message → Option PyVal)
    (fT : String → List Task → List Task)
    (fB : String → List TimeBlock → List Task → List TimeBlock)
    (hc : (run_intent_router (nlpFn (lastMessageText app_state)) freshId nowIso).intent
        = "CREATE_TASK") :
    ∃ title, run_graph app_state nlpFn freshId nowIso llmJson fT fB
      = .ok { chat_response := .str ("OK, I\x27ve added \x27" ++ title ++ "\x27 to your list."),
              actions := .arr [createTaskActionVal freshId (nowIso ++ "Z") title] } := by
  obtain ⟨t, heq⟩ := run_intent_router_create_payload _ _ _ hc
  refine ⟨t, ?_⟩
  have h1 : intent_router_node (initialGraphState app_state) nlpFn freshId nowIso
      = { initialGraphState app_state with
            detected_intent := "CREATE_TASK",
            chat_response := .str ("OK, I\x27ve added \x27" ++ t ++ "\x27 to your list."),
            actions := .arr [createTaskActionVal freshId (nowIso ++ "Z") t] } := by
    simp only [intent_router_node]
    rw [show lastMessageText (initialGraphState app_state).app_state
        = lastMessageText app_state from rfl, heq]
    simp
  unfold run_graph
  rw [h1]
  simp [route_after_intent, final_response_node]

/-- On a DELETE_TASK / TOGGLE_TASK / DELETE_TIME_BLOCK intent, run_graph
runs candidate retrieval and then the focused resolver. -/
theorem run_graph_specialized_path (app_state : AppState) (nlpFn : String → Option Doc)
    (freshId nowIso : String) (llmJson : List Message → Option PyVal)
    (fT : String → List Task → List Task)
    (fB : String → List TimeBlock → List Task → List TimeBlock)
    (hd : (run_intent_router (nlpFn (lastMessageText app_state)) freshId nowIso).intent
        = "DELETE_TASK"
      ∨ (run_intent_router (nlpFn (lastMessageText app_state)) freshId nowIso).intent
        = "TOGGLE_TASK"
      ∨ (run_intent_router (nlpFn (lastMessageText app_state)) freshId nowIso).intent
        = "DELETE_TIME_BLOCK") :
    run_graph app_state nlpFn freshId nowIso llmJson fT fB
      = (specialized_agent_node
          (find_candidate_tasks_node
            { initialGraphState app_state with
                detected_intent :=
                  (run_intent_router (nlpFn (lastMessageText app_state)) freshId nowIso).intent }
            fT fB)
          llmJson).map
        (fun st => { chat_response := st.chat_response, actions := st.actions }) := by
  have hne : (run_intent_router (nlpFn (lastMessageText app_state)) freshId nowIso).intent
      ≠ "CREATE_TASK" := by
    rcases hd with h | h | h <;> rw [h] <;> decide
  have h1 := intent_router_node_not_create (initialGraphState app_state) nlpFn freshId nowIso
    (by simpa using hne)
  simp only [show (initialGraphState app_state).app_state = app_state from rfl] at h1
  unfold run_graph
  rw [h1]
  rcases hd with hi | hi | hi <;> rw [hi] <;>
    simp [route_after_intent, route_after_find_candidates,
      find_candidate_tasks_node_detected_intent, final_response_node, initialGraphState]

/-- C9: the pattern router only ever returns CREATE_TASK, DELETE_TASK,
TOGGLE_TASK or AGENT_FALLBACK — never DELETE_TIME_BLOCK — and consequently,
whenever a pipeline run returns a deleteTimeBlock action, the request was
routed to the general agent (the focused resolver's DELETE_TIME_BLOCK
branch is unreachable from the router). -/
theorem C9_router_never_yields_delete_time_block :
    (∀ (doc? : Option Doc) (freshId nowIso : String),
      (run_intent_router doc? freshId nowIso).intent ≠ "DELETE_TIME_BLOCK"
      ∧ (run_intent_router doc? freshId nowIso).intent
          ∈ (["CREATE_TASK", "DELETE_TASK", "TOGGLE_TASK", "AGENT_FALLBACK"] : List String))
    ∧ (∀ (app_state : AppState) (nlpFn : String → Option Doc) (freshId nowIso : String)
        (llmJson : List Message → Option PyVal)
        (fT : String → List Task → List Task)
        (fB : String → List TimeBlock → List Task → List TimeBlock)
        (resp : ApiResponseM),
      run_graph app_state nlpFn freshId nowIso llmJson fT fB = .ok resp →
      containsActionType "deleteTimeBlock" resp.actions = true →
      (run_intent_router (nlpFn (lastMessageText app_state)) freshId nowIso).intent
        = "AGENT_FALLBACK") := by
  constructor
  · intro doc? freshId nowIso
    have hm := run_intent_router_intent_mem doc? freshId nowIso
    exact ⟨fun habs => absurd (habs ▸ hm) (by decide), hm⟩
  · intro app_state nlpFn freshId nowIso llmJson fT fB resp hrun hdtb
    have hm := run_intent_router_intent_mem (nlpFn (lastMessageText app_state)) freshId nowIso
    simp only [List.mem_cons, List.not_mem_nil, or_false] at hm
    rcases hm with hc | hd | ht | hf
    · obtain ⟨t, heqr⟩ := run_graph_create_shortcut app_state nlpFn freshId nowIso llmJson fT fB hc
      rw [heqr] at hrun
      cases hrun
      simp [containsActionType, actionTypeIs, createTaskActionVal, lookupField, pyEqStr] at hdtb
    · rw [run_graph_specialized_path app_state nlpFn freshId nowIso llmJson fT fB
        (Or.inl hd)] at hrun
      cases hsp : specialized_agent_node
          (find_candidate_tasks_node
            { initialGraphState app_state with
                detected_intent :=
                  (run_intent_router (nlpFn (lastMessageText app_state)) freshId nowIso).intent }
            fT fB) llmJson with
      | error e => rw [hsp] at hrun; simp [Except.map] at hrun
      | ok st' =>
        rw [hsp] at hrun
        simp only [Except.map] at hrun
        cases hrun
        have hnd := specialized_agent_node_no_deleteTimeBlock _ llmJson st' (Or.inl hd) hsp
        simp only [] at hdtb
        rw [hnd] at hdtb
        cases hdtb
    · rw [run_graph_specialized_path app_state nlpFn freshId nowIso llmJson fT fB
        (Or.inr (Or.inl ht))] at hrun
      cases hsp : specialized_agent_node
          (find_candidate_tasks_node
            { initialGraphState app_state with
                detected_intent :=
                  (run_intent_router (nlpFn (lastMessageText app_state)) freshId nowIso).intent }
            fT fB) llmJson with
      | error e => rw [hsp] at hrun; simp [Except.map] at hrun
      | ok st' =>
        rw [hsp] at hrun
        simp only [Except.map] at hrun
        cases hrun
        have hnd := specialized_agent_node_no_deleteTimeBlock _ llmJson st' (Or.inr ht) hsp
        simp only [] at hdtb
        rw [hnd] at hdtb
        cases hdtb
    · exact hf

/-- Witness for C9: a concrete run in which the general agent emits a
deleteTimeBlock action; the theorem forces the routing decision to have
been AGENT_FALLBACK. -/
theorem C9_router_never_yields_delete_time_block_witness :
    (run_intent_router
        ((fun _ => none : String → Option Doc)
          (lastMessageText (mkAppState "cancel it all" "user")))
        "id-1" "2024-01-01T00:00:00").intent = "AGENT_FALLBACK" :=
  C9_router_never_yields_delete_time_block.2 (mkAppState "cancel it all" "user")
    (fun _ => none) "id-1" "2024-01-01T00:00:00"
    (fun _ => some (.obj [("response_message", .str "removed"),
      ("actions", .arr [.obj [("action_type", .str "deleteTimeBlock"),
        ("payload", .obj [("id", .str "block-1")])]])]))
    (fun _ _ => []) (fun _ _ _ => [])
    { chat_response := .str "removed",
      actions := .arr [.obj [("action_type", .str "deleteTimeBlock"),
        ("payload", .obj [("id", .str "block-1")])]] }
    rfl rfl

/-! Facts about the span sort and the greedy selection of filter_spans. -/

theorem mem_insertSorted (le : Span → Span → Bool) (x y : Span) :
    ∀ l : List Span, y ∈ insertSorted le x l → y = x ∨ y ∈ l := by
  intro l
  induction l with
  | nil =>
    intro h
    simp [insertSorted] at h
    exact Or.inl h
  | cons z zs ih =>
    intro h
    rw [insertSorted] at h
    by_cases hc : le x z = true
    · rw [if_pos hc] at h
      exact List.mem_cons.mp h
    · rw [if_neg hc] at h
      rcases List.mem_cons.mp h with h | h
      · exact Or.inr (by simp [h])
      · rcases ih h with h | h
        · exact Or.inl h
        · exact Or.inr (List.mem_cons_of_mem _ h)

theorem mem_sortSpans (le : Span → Span → Bool) (y : Span) :
    ∀ l : List Span, y ∈ sortSpans le l → y ∈ l := by
  intro l
  induction l with
  | nil => intro h; simpa [sortSpans] using h
  | cons a l ih =>
    intro h
    have hs : sortSpans le (a :: l) = insertSorted le a (sortSpans le l) := rfl
    rw [hs] at h
    rcases mem_insertSorted le a y _ h with h | h
    · simp [h]
    · exact List.mem_cons_of_mem _ (ih h)

theorem mem_selectSpans (y : Span) :
    ∀ (l : List Span) (seen : List Nat), y ∈ selectSpans l seen → y ∈ l := by
  intro l
  induction l with
  | nil => intro seen h; simpa [selectSpans] using h
  | cons sp rest ih =>
    intro seen h
    rw [selectSpans] at h
    split_ifs at h with hc
    · exact List.mem_cons_of_mem _ (ih _ h)
    · rcases List.mem_cons.mp h with h | h
      · simp [h]
      · exact List.mem_cons_of_mem _ (ih _ h)

theorem mem_filter_spans (y : Span) (l : List Span) (h : y ∈ filter_spans l) : y ∈ l := by
  unfold filter_spans at h
  exact mem_sortSpans spanBefore y l
    (mem_selectSpans y _ _ (mem_sortSpans spanStartLe y _ h))

theorem spanBefore_refl (a : Span) : spanBefore a a = true := by
  simp [spanBefore]

theorem spanBefore_total (a b : Span) (h : spanBefore a b = false) :
    spanBefore b a = true := by
  simp [spanBefore] at *
  omega

theorem spanBefore_trans (a b c : Span) (h1 : spanBefore a b = true)
    (h2 : spanBefore b c = true) : spanBefore a c = true := by
  simp [spanBefore] at *
  omega

theorem insertSorted_ne_nil (le : Span → Span → Bool) (x : Span) (l : List Span) :
    insertSorted le x l ≠ [] := by
  cases l with
  | nil => simp [insertSorted]
  | cons y ys =>
    rw [insertSorted]
    split_ifs <;> simp

/-- The head of the length-descending sort is minimal in the sort order. -/
theorem sortSpans_head_min (l : List Span) (h : Span)
    (hh : (sortSpans spanBefore l).head? = some h) :
    ∀ x ∈ l, spanBefore h x = true := by
  induction l generalizing h with
  | nil => simp [sortSpans] at hh
  | cons a l ih =>
    have hs : sortSpans spanBefore (a :: l) = insertSorted spanBefore a (sortSpans spanBefore l) := rfl
    rw [hs] at hh
    cases hsl : sortSpans spanBefore l with
    | nil =>
      rw [hsl] at hh
      simp [insertSorted] at hh
      subst hh
      intro x hx
      rcases List.mem_cons.mp hx with rfl | hx
      · exact spanBefore_refl _
      · cases l with
        | nil => simp at hx
        | cons b bs => exact absurd hsl (insertSorted_ne_nil _ _ _)
    | cons y ys =>
      rw [hsl] at hh
      rw [insertSorted] at hh
      by_cases hc : spanBefore a y = true
      · rw [if_pos hc] at hh
        simp at hh
        subst hh
        intro x hx
        rcases List.mem_cons.mp hx with rfl | hx
        · exact spanBefore_refl _
        · exact spanBefore_trans _ _ _ hc (ih y (by rw [hsl]; rfl) x hx)
      · rw [if_neg hc] at hh
        simp at hh
        subst hh
        intro x hx
        rcases List.mem_cons.mp hx with rfl | hx
        · exact spanBefore_total _ _ (by simpa using hc)
        · exact ih y (by rw [hsl]; rfl) x hx

theorem le_maxSpanLen (l : List Span) (x : Span) (h : x ∈ l) :
    spanLen x ≤ maxSpanLen l := by
  induction l with
  | nil => simp at h
  | cons a l ih =>
    rcases List.mem_cons.mp h with rfl | h
    · exact Nat.le_max_left _ _
    · exact Nat.le_trans (ih h) (Nat.le_max_right _ _)

theorem maxSpanLen_le (l : List Span) (m : Nat) (h : ∀ x ∈ l, spanLen x ≤ m) :
    maxSpanLen l ≤ m := by
  induction l with
  | nil => exact Nat.zero_le m
  | cons a l ih =>
    exact Nat.max_le.mpr ⟨h a (by simp), ih (fun x hx => h x (List.mem_cons_of_mem _ hx))⟩

theorem mem_of_head?_spans (l : List Span) (h : Span) (hh : l.head? = some h) : h ∈ l := by
  cases l with
  | nil => cases hh
  | cons a t =>
    simp at hh
    simp [hh]

/-- When every span starts at the same token, the head of the sort is the
first listed span of maximal length (Python's sort is stable). -/
theorem sortSpans_head_firstMax (s : Nat) :
    ∀ l : List Span, l ≠ [] → (∀ sp ∈ l, sp.start = s) →
    ∃ h, (sortSpans spanBefore l).head? = some h
      ∧ l.find? (fun sp => spanLen sp == maxSpanLen l) = some h := by
  intro l
  induction l with
  | nil => intro hne; exact absurd rfl hne
  | cons a l ih =>
    intro _ hs
    cases l with
    | nil =>
      refine ⟨a, rfl, ?_⟩
      simp [List.find?, maxSpanLen]
    | cons b bs =>
      obtain ⟨h', hh', hf'⟩ := ih (by simp) (fun sp hsp => hs sp (List.mem_cons_of_mem _ hsp))
      have hmem' : h' ∈ b :: bs :=
        mem_sortSpans spanBefore h' _ (mem_of_head?_spans _ _ hh')
      have hstart_a : a.start = s := hs a (by simp)
      have hstart_h : h'.start = s := hs h' (List.mem_cons_of_mem _ hmem')
      have hmax' : spanLen h' = maxSpanLen (b :: bs) := by
        apply Nat.le_antisymm (le_maxSpanLen _ _ hmem')
        apply maxSpanLen_le
        intro x hx
        have hb := sortSpans_head_min _ _ hh' x hx
        have hsx : x.start = s := hs x (List.mem_cons_of_mem _ hx)
        simp [spanBefore] at hb
        omega
      have hmaxcons : maxSpanLen (a :: b :: bs) = max (spanLen a) (maxSpanLen (b :: bs)) := rfl
      by_cases hc : spanBefore a h' = true
      · have hlen : spanLen h' ≤ spanLen a := by
          simp [spanBefore] at hc
          omega
        refine ⟨a, ?_, ?_⟩
        · show (insertSorted spanBefore a (sortSpans spanBefore (b :: bs))).head? = some a
          cases hsl : sortSpans spanBefore (b :: bs) with
          | nil => simp [insertSorted]
          | cons y ys =>
            rw [hsl] at hh'
            simp at hh'
            subst hh'
            rw [insertSorted, if_pos hc]
            rfl
        · have hm : maxSpanLen (a :: b :: bs) = spanLen a := by
            rw [hmaxcons, ← hmax']
            omega
          rw [hm]
          simp [List.find?]
      · have hlen : spanLen a < spanLen h' := by
          simp [spanBefore] at hc
          omega
        refine ⟨h', ?_, ?_⟩
        · show (insertSorted spanBefore a (sortSpans spanBefore (b :: bs))).head? = some h'
          cases hsl : sortSpans spanBefore (b :: bs) with
          | nil => rw [hsl] at hh'; cases hh'
          | cons y ys =>
            rw [hsl] at hh'
            simp at hh'
            subst hh'
            rw [insertSorted, if_neg (by simpa using hc)]
            rfl
        · have hm : maxSpanLen (a :: b :: bs) = maxSpanLen (b :: bs) := by
            rw [hmaxcons, ← hmax']
            omega
          rw [hm]
          have hpa : (spanLen a == maxSpanLen (b :: bs)) = false := by
            rw [← hmax']
            simp
            omega
          simpa [List.find?, hpa] using hf'

theorem selectSpans_of_forall_start_seen :
    ∀ (l : List Span) (seen : List Nat), (∀ sp ∈ l, sp.start ∈ seen) →
    selectSpans l seen = [] := by
  intro l
  induction l with
  | nil => intro seen _; rfl
  | cons sp rest ih =>
    intro seen h
    rw [selectSpans, if_pos (Or.inl (h sp (by simp)))]
    exact ih seen (fun x hx => h x (List.mem_cons_of_mem _ hx))

/-- When all matches share a start token, filter_spans keeps exactly the
head of the length-descending sort. -/
theorem filter_spans_same_start (l : List Span) (s : Nat) (h : Span)
    (hs : ∀ sp ∈ l, sp.start = s) (hpos : ∀ sp ∈ l, 0 < spanLen sp)
    (hh : (sortSpans spanBefore l).head? = some h) :
    filter_spans l = [h] := by
  unfold filter_spans
  cases hsl : sortSpans spanBefore l with
  | nil => rw [hsl] at hh; cases hh
  | cons y ys =>
    rw [hsl] at hh
    simp at hh
    subst hh
    have hmemh : y ∈ l := mem_sortSpans spanBefore y l (by rw [hsl]; simp)
    rw [selectSpans, if_neg (by simp)]
    have hrest : selectSpans ys ([] ++ List.range' y.start (y.stop - y.start)) = [] := by
      apply selectSpans_of_forall_start_seen
      intro sp hsp
      have hmem : sp ∈ l :=
        mem_sortSpans spanBefore sp l (by rw [hsl]; exact List.mem_cons_of_mem _ hsp)
      have h1 : sp.start = s := hs sp hmem
      have h2 : y.start = s := hs y hmemh
      have h3 : 0 < spanLen y := hpos y hmemh
      simp only [spanLen] at h3
      simp [List.mem_range'_1]
      omega
    rw [hrest]
    rfl

theorem seqLens_head_once_pos (p : Token → Bool) (rest : List PatSpec)
    (ts : List Token) (n : Nat) (h : n ∈ seqLens (⟨p, .once⟩ :: rest) ts) :
    0 < n := by
  rw [seqLens] at h
  simp only [List.mem_flatMap, List.mem_map] at h
  obtain ⟨m, hm, k, _, rfl⟩ := h
  cases ts with
  | nil => simp [opLens] at hm
  | cons t ts =>
    rw [opLens] at hm
    simp only [] at hm
    split_ifs at hm with hp
    · simp at hm
      omega
    · simp at hm

/-- Every match the rules produce has positive span length (each pattern
starts with a mandatory trigger token). -/
theorem allMatches_pos (toks : List Token) (sp : Span) (h : sp ∈ allMatches toks) :
    0 < spanLen sp := by
  have hrule : ∀ (rid : String) (p : Token → Bool) (rest : List PatSpec),
      sp ∈ ruleMatches rid (⟨p, .once⟩ :: rest) toks → 0 < spanLen sp := by
    intro rid p rest hm
    rw [ruleMatches] at hm
    simp only [List.mem_flatMap, List.mem_map] at hm
    obtain ⟨st, _, n, hn, rfl⟩ := hm
    have := seqLens_head_once_pos p rest (toks.drop st) n hn
    simp [spanLen]
    omega
  rcases List.mem_append.mp h with h1 | h1
  · rcases List.mem_append.mp h1 with h2 | h2
    · exact hrule _ _ _ h2
    · exact hrule _ _ _ h2
  · exact hrule _ _ _ h1

/-- C5 (amended): when several rule patterns match and all matches begin at
the same token, the span filter keeps exactly one match — the first listed
match of maximal span length (the matcher lists create before delete before
toggle for identical spans, so equal-length ties prefer create over delete
over toggle) — and that match is the best_match the router reads its intent
from.  In general the router reads the earliest-starting surviving match,
which need not be the longest (see the counterexample). -/
theorem C5_longest_match_wins_at_same_start (toks : List Token) (s : Nat)
    (hne : allMatches toks ≠ [])
    (hs : ∀ sp ∈ allMatches toks, sp.start = s) :
    ∃ best,
      (allMatches toks).find?
          (fun sp => spanLen sp == maxSpanLen (allMatches toks)) = some best
      ∧ filter_spans (allMatches toks) = [best]
      ∧ (filter_spans (allMatches toks)).head? = some best
      ∧ ∀ sp ∈ allMatches toks, spanLen sp ≤ spanLen best := by
  obtain ⟨best, hh, hf⟩ := sortSpans_head_firstMax s (allMatches toks) hne hs
  have hfl : filter_spans (allMatches toks) = [best] :=
    filter_spans_same_start (allMatches toks) s best hs
      (fun sp hsp => allMatches_pos toks sp hsp) hh
  refine ⟨best, hf, hfl, by rw [hfl]; rfl, ?_⟩
  intro sp hsp
  have hb := sortSpans_head_min _ _ hh sp hsp
  have h1 : sp.start = s := hs sp hsp
  have h2 : best.start = s :=
    hs best (mem_sortSpans spanBefore best _ (mem_of_head?_spans _ _ hh))
  simp [spanBefore] at hb
  omega

/-- Witness for C5 on the parse of "delete milk": both matches start at
token 0 and the longer one (the whole utterance) wins. -/
theorem C5_longest_match_wins_at_same_start_witness :
    ∃ best,
      (allMatches docDeleteMilk.tokens).find?
          (fun sp => spanLen sp == maxSpanLen (allMatches docDeleteMilk.tokens)) = some best
      ∧ filter_spans (allMatches docDeleteMilk.tokens) = [best]
      ∧ (filter_spans (allMatches docDeleteMilk.tokens)).head? = some best
      ∧ ∀ sp ∈ allMatches docDeleteMilk.tokens, spanLen sp ≤ spanLen best :=
  C5_longest_match_wins_at_same_start docDeleteMilk.tokens 0 (by decide) (by decide)

/-- Counterexample to C5 as stated: on the parse of "finished. add the task
buy milk" the longest match (five tokens, CREATE_TASK, starting at token 2)
does not determine the intent; the single-token TOGGLE_TASK match at token
0 survives the filter with it, is sorted first, and the router returns
TOGGLE_TASK. -/
theorem C5_counterexample_earlier_shorter_match_wins :
    (⟨"CREATE_TASK", 2, 7⟩ : Span) ∈ allMatches docFinishedAdd.tokens
    ∧ (∀ sp ∈ allMatches docFinishedAdd.tokens, spanLen sp ≤ 5)
    ∧ (∀ sp ∈ allMatches docFinishedAdd.tokens, spanLen sp = 5 → sp.rule = "CREATE_TASK")
    ∧ (run_intent_router (some docFinishedAdd) "id-5" "2024-01-01T00:00:00").intent
        = "TOGGLE_TASK" := by
  refine ⟨by decide, by decide, by decide, ?_⟩
  rfl

/-! Facts about rule matches and the title extraction of the CREATE_TASK
shortcut. -/

theorem ruleMatches_inv (rid : String) (pat : List PatSpec) (toks : List Token)
    (sp : Span) (h : sp ∈ ruleMatches rid pat toks) :
    ∃ s n, sp = ⟨rid, s, s + n⟩ ∧ n ∈ seqLens pat (toks.drop s) := by
  rw [ruleMatches] at h
  simp only [List.mem_flatMap, List.mem_map] at h
  obtain ⟨s, _, n, hn, heq⟩ := h
  exact ⟨s, n, heq.symm, hn⟩

theorem ruleMatches_rule (rid : String) (pat : List PatSpec) (toks : List Token)
    (sp : Span) (h : sp ∈ ruleMatches rid pat toks) : sp.rule = rid := by
  obtain ⟨s, n, heq, _⟩ := ruleMatches_inv rid pat toks sp h
  rw [heq]

theorem countLeading_pos (p : Token → Bool) (l : List Token)
    (h : 0 < countLeading p l) : ∃ t r, l = t :: r ∧ p t = true := by
  cases l with
  | nil => simp [countLeading] at h
  | cons t r =>
    rw [countLeading] at h
    by_cases hp : p t = true
    · exact ⟨t, r, rfl, hp⟩
    · rw [if_neg hp] at h
      omega

theorem opLens_once_mem (p : Token → Bool) (ts : List Token) (m : Nat)
    (h : m ∈ opLens ⟨p, .once⟩ ts) : m = 1 := by
  cases ts with
  | nil => simp [opLens] at h
  | cons t r =>
    rw [opLens] at h
    simp only [] at h
    split_ifs at h with hp
    · simpa using h
    · simp at h

theorem opLens_plus_mem (p : Token → Bool) (ts : List Token) (m : Nat)
    (h : m ∈ opLens ⟨p, .plus⟩ ts) : 1 ≤ m ∧ 1 ≤ countLeading p ts := by
  have e : opLens ⟨p, .plus⟩ ts = (List.range (countLeading p ts)).map (· + 1) := rfl
  rw [e] at h
  simp only [List.mem_map, List.mem_range] at h
  obtain ⟨j, hj, rfl⟩ := h
  omega

theorem drop_cons_of_getElem? :
    ∀ (l : List Token) (k : Nat) (t : Token), l[k]? = some t →
    l.drop k = t :: l.drop (k + 1) := by
  intro l
  induction l with
  | nil => intro k t h; cases k <;> cases h
  | cons a l ih =>
    intro k t h
    cases k with
    | zero =>
      simp at h
      simp [h]
    | succ k =>
      simp at h ⊢
      exact ih k t h

theorem getElem?_of_drop_eq_cons :
    ∀ (l : List Token) (k : Nat) (t : Token) (r : List Token),
    l.drop k = t :: r → l[k]? = some t := by
  intro l
  induction l with
  | nil => intro k t r h; rw [List.drop_nil] at h; cases h
  | cons a l ih =>
    intro k t r h
    cases k with
    | zero =>
      simp at h ⊢
      exact h.1
    | succ k =>
      simp at h ⊢
      exact ih k t r h

/-- A CREATE_TASK match always contains, strictly after its trigger token,
a token whose part of speech is VERB or NOUN (the mandatory + element of
the pattern). -/
theorem create_match_has_content (ts : List Token) (n : Nat)
    (h : n ∈ seqLens create_pattern ts) :
    ∃ o t, 1 ≤ o ∧ o < n ∧ ts[o]? = some t
      ∧ (t.pos == "VERB" || t.pos == "NOUN") = true := by
  simp only [create_pattern, seqLens, List.mem_flatMap, List.mem_map] at h
  obtain ⟨m1, hm1, k1, ⟨m2, hm2, k2, ⟨m3, hm3, k3, ⟨m4, hm4, k4,
    ⟨m5, hm5, k5, ⟨m6, hm6, z, hz, hz6⟩, h5s⟩, h4s⟩, h3s⟩, h2s⟩, h1s⟩ := h
  have h1 : m1 = 1 := opLens_once_mem _ _ _ hm1
  have h5 := opLens_plus_mem _ _ _ hm5
  obtain ⟨t, r, hseg, hp⟩ := countLeading_pos _ _ h5.2
  have hseg2 : List.drop (m1 + m2 + m3 + m4) ts = t :: r := by
    rw [← hseg]
    simp only [List.drop_drop]
    try congr 1
    try omega
  refine ⟨m1 + m2 + m3 + m4, t, by omega, by omega,
    getElem?_of_drop_eq_cons ts _ t r hseg2, hp⟩

theorem titleStartIndex_found (toks : List Token) (s e : Nat)
    (hex : ∃ j ∈ List.range' (s + 1) (e - (s + 1)),
      (match toks[j]? with
       | some t => t.pos == "VERB" || t.pos == "NOUN"
       | none => false) = true) :
    ∃ j t, titleStartIndex toks s e = j ∧ toks[j]? = some t
      ∧ (t.pos == "VERB" || t.pos == "NOUN") = true := by
  have hsome : ((List.range' (s + 1) (e - (s + 1))).find? (fun j =>
      match toks[j]? with
      | some t => t.pos == "VERB" || t.pos == "NOUN"
      | none => false)).isSome := by
    rw [List.find?_isSome]
    obtain ⟨j, hj, hpj⟩ := hex
    exact ⟨j, hj, hpj⟩
  obtain ⟨j, hj⟩ := Option.isSome_iff_exists.mp hsome
  have hpj := List.find?_some hj
  cases ht : toks[j]? with
  | none => rw [ht] at hpj; cases hpj
  | some t =>
    rw [ht] at hpj
    refine ⟨j, t, ?_, ht, hpj⟩
    rw [titleStartIndex, hj]

theorem dropWhile_exists_not (p : Char → Bool) :
    ∀ l : List Char, (∃ c ∈ l, ¬ p c = true) →
    ∃ c ∈ l.dropWhile p, ¬ p c = true := by
  intro l
  induction l with
  | nil => simp
  | cons a l ih =>
    intro h
    obtain ⟨c, hc, hnp⟩ := h
    by_cases hp : p a = true
    · rw [List.dropWhile_cons_of_pos hp]
      apply ih
      rcases List.mem_cons.mp hc with rfl | hc
      · exact absurd hp hnp
      · exact ⟨c, hc, hnp⟩
    · rw [List.dropWhile_cons_of_neg hp]
      exact ⟨a, by simp, hp⟩

/-- A string with a non-whitespace character does not strip to empty. -/
theorem pyStrip_ne_empty (str : String)
    (h : ∃ c ∈ str.data, ¬ c.isWhitespace = true) : pyStrip str ≠ "" := by
  intro he
  have hdata : ((str.data.dropWhile Char.isWhitespace).reverse.dropWhile
      Char.isWhitespace).reverse = [] := congrArg String.data he
  rw [List.reverse_eq_nil_iff, List.dropWhile_eq_nil_iff] at hdata
  obtain ⟨c, hc, hnp⟩ := dropWhile_exists_not _ _ h
  exact hnp (hdata c (List.mem_reverse.mpr hc))

/-- The text of the tokens from index j on contains every character of the
token at index j. -/
theorem sliceText_has_char (toks : List Token) (j : Nat) (t : Token)
    (ht : toks[j]? = some t) (c : Char) (hc : c ∈ t.text.data) :
    c ∈ (sliceText toks j).data := by
  have hdrop : toks.drop j = t :: toks.drop (j + 1) := drop_cons_of_getElem? toks j t ht
  rw [sliceText, hdrop, textWithWs]
  simp [hc]

theorem mem_of_getElem?_tok (l : List Token) (k : Nat) (t : Token)
    (h : l[k]? = some t) : t ∈ l := by
  have hdrop : l.drop k = t :: l.drop (k + 1) := drop_cons_of_getElem? l k t h
  have : t ∈ l.drop k := by rw [hdrop]; simp
  exact List.mem_of_mem_drop this

/-- C3 (amended): when the router's selected best match is a CREATE_TASK
match and the parse carries no complexity signal, the router alone returns
exactly one createTask action whose title is non-empty, whose identifier is
the freshly generated one, whose creation date is the current UTC time
(isoformat plus Z), whose optional fields are all null (see
createTaskActionVal), together with the canned confirmation reply.  The
well-formedness hypothesis states that VERB/NOUN tokens of the parse carry
at least one non-whitespace character, which the tokenizer guarantees. -/
theorem C3_create_shortcut_builds_full_action (doc : Doc) (freshId nowIso : String)
    (best : Span)
    (hbest : (filter_spans (allMatches doc.tokens)).head? = some best)
    (hrule : best.rule = "CREATE_TASK")
    (hents : hasComplexEntity doc = false)
    (hpri : hasPriorityVocab doc = false)
    (hwf : ∀ t ∈ doc.tokens, (t.pos == "VERB" || t.pos == "NOUN") = true →
      ∃ c ∈ t.text.data, ¬ c.isWhitespace = true) :
    ∃ title, title ≠ ""
      ∧ run_intent_router (some doc) freshId nowIso
        = { intent := "CREATE_TASK",
            payload := some [createTaskActionVal freshId (nowIso ++ "Z") title],
            response := some ("OK, I\x27ve added \x27" ++ title ++ "\x27 to your list.") } := by
  have hmem : best ∈ allMatches doc.tokens :=
    mem_filter_spans best _ (mem_of_head?_spans _ _ hbest)
  have hcr : best ∈ ruleMatches "CREATE_TASK" create_pattern doc.tokens := by
    rcases List.mem_append.mp hmem with h1 | h1
    · rcases List.mem_append.mp h1 with h2 | h2
      · exact h2
      · have := ruleMatches_rule _ _ _ _ h2
        rw [hrule] at this
        exact absurd this (by decide)
    · have := ruleMatches_rule _ _ _ _ h1
      rw [hrule] at this
      exact absurd this (by decide)
  obtain ⟨st, n, hsp, hn⟩ := ruleMatches_inv _ _ _ _ hcr
  obtain ⟨o, t0, ho1, ho2, hto, hpos⟩ := create_match_has_content (doc.tokens.drop st) n hn
  have hidx : doc.tokens[st + o]? = some t0 := by
    rw [← hto, List.getElem?_drop]
  have hex : ∃ j ∈ List.range' (best.start + 1) (best.stop - (best.start + 1)),
      (match doc.tokens[j]? with
       | some t => t.pos == "VERB" || t.pos == "NOUN"
       | none => false) = true := by
    refine ⟨st + o, ?_, ?_⟩
    · rw [hsp]
      simp [List.mem_range'_1]
      omega
    · rw [hidx]
      exact hpos
  obtain ⟨j, tj, hjeq, hjt, hjpos⟩ :=
    titleStartIndex_found doc.tokens best.start best.stop hex
  refine ⟨pyStrip (sliceText doc.tokens (titleStartIndex doc.tokens best.start best.stop)),
    ?_, ?_⟩
  · rw [hjeq]
    apply pyStrip_ne_empty
    obtain ⟨c, hc, hnw⟩ := hwf tj (mem_of_getElem?_tok _ _ _ hjt) hjpos
    exact ⟨c, sliceText_has_char _ _ _ hjt c hc, hnw⟩
  · simp [run_intent_router, hbest, hrule, hents, hpri]

/-- Witness for C3's amended theorem on the parse of "add the task buy
milk". -/
theorem C3_create_shortcut_builds_full_action_witness :
    ∃ title, title ≠ ""
      ∧ run_intent_router (some docAddTask) "id-7" "2024-01-01T00:00:00"
        = { intent := "CREATE_TASK",
            payload := some [createTaskActionVal "id-7" ("2024-01-01T00:00:00" ++ "Z") title],
            response := some ("OK, I\x27ve added \x27" ++ title ++ "\x27 to your list.") } :=
  C3_create_shortcut_builds_full_action docAddTask "id-7" "2024-01-01T00:00:00"
    ⟨"CREATE_TASK", 0, 5⟩ (by decide) rfl (by decide) (by decide) (by decide)

/-- Counterexample to C3 as stated: the parse of "did. create a task buy
milk" matches the CREATE_TASK pattern (at tokens 2..7) and carries no
complexity signal, yet the router produces no createTask action at all: the
single-token toggle match at token 0 is selected instead and the router
returns the TOGGLE_TASK partial shortcut with no payload and no reply. -/
theorem C3_counterexample_create_match_without_action :
    (∃ sp ∈ allMatches docDidCreate.tokens, sp.rule = "CREATE_TASK")
    ∧ hasComplexEntity docDidCreate = false
    ∧ hasPriorityVocab docDidCreate = false
    ∧ run_intent_router (some docDidCreate) "id-8" "2024-01-01T00:00:00"
        = { intent := "TOGGLE_TASK", payload := none, response := none } := by
  refine ⟨by decide, by decide, by decide, ?_⟩
  rfl

/-- The focused resolver's reply and actions depend only on the detected
intent, the utterance text, the task list and the candidate sets — not on
the rest of the graph state. -/
theorem specializedDecode_resp_congr (s1 s2 : GraphState)
    (llmJson : List Message → Option PyVal) (prompt : String)
    (h_int : s1.detected_intent = s2.detected_intent)
    (h_tasks : s1.app_state.tasks = s2.app_state.tasks)
    (h_ct : s1.candidate_tasks = s2.candidate_tasks)
    (h_cb : s1.candidate_time_blocks = s2.candidate_time_blocks)
    (hin : s1.detected_intent = "DELETE_TASK" ∨ s1.detected_intent = "TOGGLE_TASK"
      ∨ s1.detected_intent = "DELETE_TIME_BLOCK") :
    (specializedDecode s1 llmJson prompt).map
        (fun st => ApiResponseM.mk st.chat_response st.actions)
      = (specializedDecode s2 llmJson prompt).map
        (fun st => ApiResponseM.mk st.chat_response st.actions) := by
  rw [specializedDecode, specializedDecode, ← h_int, ← h_tasks, ← h_ct, ← h_cb]
  rcases hllm : llmJson [.human prompt] with _ | v
  · rfl
  · cases v <;> try rfl
    case obj fields =>
      simp only []
      rcases hin with hi | hi | hi <;> rw [hi] <;> (repeat' split) <;>
        first
          | rfl
          | simp_all

/-- specialized_agent_node projected to the final response depends only on
the detected intent, the utterance text, the task list and the candidate
sets. -/
theorem specialized_agent_node_resp_congr (s1 s2 : GraphState)
    (llmJson : List Message → Option PyVal)
    (h_int : s1.detected_intent = s2.detected_intent)
    (h_text : lastMessageText s1.app_state = lastMessageText s2.app_state)
    (h_tasks : s1.app_state.tasks = s2.app_state.tasks)
    (h_ct : s1.candidate_tasks = s2.candidate_tasks)
    (h_cb : s1.candidate_time_blocks = s2.candidate_time_blocks) :
    (specialized_agent_node s1 llmJson).map
        (fun st => ApiResponseM.mk st.chat_response st.actions)
      = (specialized_agent_node s2 llmJson).map
        (fun st => ApiResponseM.mk st.chat_response st.actions) := by
  rw [specialized_agent_node, specialized_agent_node,
    ← h_int, ← h_text, ← h_tasks, ← h_ct, ← h_cb]
  by_cases hi1 : (s1.detected_intent == "DELETE_TASK"
      || s1.detected_intent == "TOGGLE_TASK") = true
  · rw [if_pos hi1, if_pos hi1]
    by_cases hc : (s1.candidate_tasks.getD []).isEmpty = true
    · rw [if_pos hc, if_pos hc]
      rfl
    · rw [if_neg hc, if_neg hc]
      apply specializedDecode_resp_congr _ _ _ _ h_int h_tasks h_ct h_cb
      simp at hi1
      tauto
  · rw [if_neg hi1, if_neg hi1]
    by_cases hi2 : (s1.detected_intent == "DELETE_TIME_BLOCK") = true
    · rw [if_pos hi2, if_pos hi2]
      by_cases hc : (s1.candidate_time_blocks.getD []).isEmpty = true
      · rw [if_pos hc, if_pos hc]
        rfl
      · rw [if_neg hc, if_neg hc]
        apply specializedDecode_resp_congr _ _ _ _ h_int h_tasks h_ct h_cb
        simp at hi2
        tauto
    · rw [if_neg hi2, if_neg hi2]
      rfl

/-- On a CREATE_TASK intent, run_graph returns exactly the router result
fields packaged as the response. -/
theorem run_graph_create_raw (app_state : AppState) (nlpFn : String → Option Doc)
    (freshId nowIso : String) (llmJson : List Message → Option PyVal)
    (fT : String → List Task → List Task)
    (fB : String → List TimeBlock → List Task → List TimeBlock)
    (hc : (run_intent_router (nlpFn (lastMessageText app_state)) freshId nowIso).intent
        = "CREATE_TASK") :
    run_graph app_state nlpFn freshId nowIso llmJson fT fB
      = .ok { chat_response :=
                match (run_intent_router (nlpFn (lastMessageText app_state))
                    freshId nowIso).response with
                | some sr => PyVal.str sr
                | none => PyVal.null,
              actions :=
                match (run_intent_router (nlpFn (lastMessageText app_state))
                    freshId nowIso).payload with
                | some l => PyVal.arr l
                | none => PyVal.null } := by
  have h1 : intent_router_node (initialGraphState app_state) nlpFn freshId nowIso
      = { initialGraphState app_state with
            detected_intent := "CREATE_TASK",
            chat_response :=
              match (run_intent_router (nlpFn (lastMessageText app_state))
                  freshId nowIso).response with
              | some sr => PyVal.str sr
              | none => PyVal.null,
            actions :=
              match (run_intent_router (nlpFn (lastMessageText app_state))
                  freshId nowIso).payload with
              | some l => PyVal.arr l
              | none => PyVal.null } := by
    simp only [intent_router_node]
    rw [show lastMessageText (initialGraphState app_state).app_state
        = lastMessageText app_state from rfl]
    rw [if_pos (by simp [hc])]
    simp [hc]
  unfold run_graph
  rw [h1]
  simp [route_after_intent, final_response_node]

/-- C10 (amended): the pipeline resolves the last chat message's text as
the utterance without checking its sender tag, so two requests identical
except for that sender tag get the same routing decision and the same
candidate sets, and — whenever the intent router does not fall back to the
general agent — the same final response.  On the general-agent path the
prompt prepared for the reasoning engine embeds every message's sender tag,
so the response can differ there (see the counterexample). -/
theorem C10_sender_tag_ignored_outside_agent_path
    (tasks : List Task) (blocks : List TimeBlock) (pre : List ChatMessage)
    (m m' : ChatMessage) (htext : m.text = m'.text)
    (nlpFn : String → Option Doc) (freshId nowIso : String)
    (llmJson : List Message → Option PyVal)
    (fT : String → List Task → List Task)
    (fB : String → List TimeBlock → List Task → List TimeBlock) :
    (run_intent_router (nlpFn (lastMessageText ⟨tasks, pre ++ [m], blocks⟩)) freshId nowIso
      = run_intent_router (nlpFn (lastMessageText ⟨tasks, pre ++ [m'], blocks⟩)) freshId nowIso)
    ∧ ((find_candidate_tasks_node (initialGraphState ⟨tasks, pre ++ [m], blocks⟩) fT fB).candidate_tasks
      = (find_candidate_tasks_node (initialGraphState ⟨tasks, pre ++ [m'], blocks⟩) fT fB).candidate_tasks)
    ∧ ((find_candidate_tasks_node (initialGraphState ⟨tasks, pre ++ [m], blocks⟩) fT fB).candidate_time_blocks
      = (find_candidate_tasks_node (initialGraphState ⟨tasks, pre ++ [m'], blocks⟩) fT fB).candidate_time_blocks)
    ∧ ((run_intent_router (nlpFn (lastMessageText ⟨tasks, pre ++ [m], blocks⟩)) freshId nowIso).intent
        ≠ "AGENT_FALLBACK" →
      run_graph ⟨tasks, pre ++ [m], blocks⟩ nlpFn freshId nowIso llmJson fT fB
        = run_graph ⟨tasks, pre ++ [m'], blocks⟩ nlpFn freshId nowIso llmJson fT fB) := by
  have hq : lastMessageText ⟨tasks, pre ++ [m], blocks⟩ = m.text := by
    simp [lastMessageText]
  have hq' : lastMessageText ⟨tasks, pre ++ [m'], blocks⟩ = m.text := by
    simp [lastMessageText, ← htext]
  have hqq : lastMessageText (⟨tasks, pre ++ [m], blocks⟩ : AppState)
      = lastMessageText ⟨tasks, pre ++ [m'], blocks⟩ := by rw [hq, hq']
  refine ⟨by rw [hqq], ?_, ?_, ?_⟩
  · simp only [find_candidate_tasks_node]
    rw [show (initialGraphState ⟨tasks, pre ++ [m], blocks⟩).app_state
        = (⟨tasks, pre ++ [m], blocks⟩ : AppState) from rfl,
      show (initialGraphState ⟨tasks, pre ++ [m'], blocks⟩).app_state
        = (⟨tasks, pre ++ [m'], blocks⟩ : AppState) from rfl, hq, hq']
  · simp only [find_candidate_tasks_node]
    rw [show (initialGraphState ⟨tasks, pre ++ [m], blocks⟩).app_state
        = (⟨tasks, pre ++ [m], blocks⟩ : AppState) from rfl,
      show (initialGraphState ⟨tasks, pre ++ [m'], blocks⟩).app_state
        = (⟨tasks, pre ++ [m'], blocks⟩ : AppState) from rfl, hq, hq']
  · intro hni
    have hm := run_intent_router_intent_mem
      (nlpFn (lastMessageText ⟨tasks, pre ++ [m], blocks⟩)) freshId nowIso
    simp only [List.mem_cons, List.not_mem_nil, or_false] at hm
    rcases hm with hc | hd | ht | hf
    · rw [run_graph_create_raw _ _ _ _ _ _ _ hc,
        run_graph_create_raw _ _ _ _ _ _ _ (by rw [← hqq]; exact hc)]
      rw [hqq]
    · rw [run_graph_specialized_path _ _ _ _ _ _ _ (Or.inl hd),
        run_graph_specialized_path _ _ _ _ _ _ _ (Or.inl (by rw [← hqq]; exact hd))]
      rw [← hqq]
      exact specialized_agent_node_resp_congr _ _ llmJson rfl
        (by simpa using hqq) rfl (by simp [find_candidate_tasks_node, initialGraphState, hq, hq']) 
        (by simp [find_candidate_tasks_node, initialGraphState, hq, hq'])
    · rw [run_graph_specialized_path _ _ _ _ _ _ _ (Or.inr (Or.inl ht)),
        run_graph_specialized_path _ _ _ _ _ _ _ (Or.inr (Or.inl (by rw [← hqq]; exact ht)))]
      rw [← hqq]
      exact specialized_agent_node_resp_congr _ _ llmJson rfl
        (by simpa using hqq) rfl (by simp [find_candidate_tasks_node, initialGraphState, hq, hq'])
        (by simp [find_candidate_tasks_node, initialGraphState, hq, hq'])
    · exact absurd hf hni

/-- Counterexample to C10 as stated: two requests identical except for the
sender tag of the (only) message produce different responses on the
general-agent path, because prepare_initial_messages embeds each message's
sender tag in the prompt given to the reasoning engine. -/
theorem C10_counterexample_sender_changes_agent_response :
    run_graph (mkAppState "hello" "user") (fun _ => none) "id-1" "2024-01-01T00:00:00"
        senderProbeLlm (fun _ _ => []) (fun _ _ _ => [])
      = .ok { chat_response := .str "A", actions := .arr [] }
    ∧ run_graph (mkAppState "hello" "bot") (fun _ => none) "id-1" "2024-01-01T00:00:00"
        senderProbeLlm (fun _ _ => []) (fun _ _ _ => [])
      = .ok { chat_response := .str "B", actions := .arr [] }
    ∧ (mkAppState "hello" "user").chatHistory.map ChatMessage.text
      = (mkAppState "hello" "bot").chatHistory.map ChatMessage.text
    ∧ (mkAppState "hello" "user").chatHistory.map ChatMessage.id
      = (mkAppState "hello" "bot").chatHistory.map ChatMessage.id
    ∧ (PyVal.str "A" ≠ PyVal.str "B") := by
  refine ⟨rfl, rfl, rfl, rfl, ?_⟩
  intro h
  injection h with h2
  exact absurd h2 (by decide)

/-- Witness for C10's amended theorem at a concrete pair of one-message
requests differing only in the sender tag. -/
theorem C10_sender_tag_ignored_outside_agent_path_witness :
    (run_intent_router ((fun _ => none : String → Option Doc)
        (lastMessageText ⟨[], [] ++ [⟨"msg-1", "hi", "user"⟩], []⟩)) "id-1" "t"
      = run_intent_router ((fun _ => none : String → Option Doc)
        (lastMessageText ⟨[], [] ++ [⟨"msg-1", "hi", "bot"⟩], []⟩)) "id-1" "t")
    ∧ ((find_candidate_tasks_node
        (initialGraphState ⟨[], [] ++ [⟨"msg-1", "hi", "user"⟩], []⟩)
        (fun _ _ => []) (fun _ _ _ => [])).candidate_tasks
      = (find_candidate_tasks_node
        (initialGraphState ⟨[], [] ++ [⟨"msg-1", "hi", "bot"⟩], []⟩)
        (fun _ _ => []) (fun _ _ _ => [])).candidate_tasks)
    ∧ ((find_candidate_tasks_node
        (initialGraphState ⟨[], [] ++ [⟨"msg-1", "hi", "user"⟩], []⟩)
        (fun _ _ => []) (fun _ _ _ => [])).candidate_time_blocks
      = (find_candidate_tasks_node
        (initialGraphState ⟨[], [] ++ [⟨"msg-1", "hi", "bot"⟩], []⟩)
        (fun _ _ => []) (fun _ _ _ => [])).candidate_time_blocks)
    ∧ ((run_intent_router ((fun _ => none : String → Option Doc)
          (lastMessageText ⟨[], [] ++ [⟨"msg-1", "hi", "user"⟩], []⟩)) "id-1" "t").intent
        ≠ "AGENT_FALLBACK" →
      run_graph ⟨[], [] ++ [⟨"msg-1", "hi", "user"⟩], []⟩ (fun _ => none) "id-1" "t"
          (fun _ => none) (fun _ _ => []) (fun _ _ _ => [])
        = run_graph ⟨[], [] ++ [⟨"msg-1", "hi", "bot"⟩], []⟩ (fun _ => none) "id-1" "t"
          (fun _ => none) (fun _ _ => []) (fun _ _ _ => [])) :=
  C10_sender_tag_ignored_outside_agent_path [] [] [] ⟨"msg-1", "hi", "user"⟩
    ⟨"msg-1", "hi", "bot"⟩ rfl (fun _ => none) "id-1" "t" (fun _ => none)
    (fun _ _ => []) (fun _ _ _ => [])

end Backend
